import Mathlib

/-!
Shallow embedding of the PathFinder academic-dashboard core
(curriculum catalog & progress engine, rule-based risk engine,
prerequisite-weighted success prediction service, classifier adapter),
translated from the Python sources under `backend/app`.

Python floats are modelled as exact rationals (`ℚ`), Python `dict`s as
insertion-ordered association lists, Python `set`s as `List String` used
only through membership, and Python's `round(x, n)` as decimal
round-half-to-even on `ℚ`.
-/

/-- Association-list lookup, the model of Python `dict.get`:
returns the value of the first entry whose key matches. -/
def alookup {κ α : Type} [DecidableEq κ] (l : List (κ × α)) (k : κ) : Option α :=
  (l.find? (fun p => decide (p.1 = k))).map (·.2)

/-- Model of Python's `round` to an integer: round half to even. -/
def pyRound (q : ℚ) : ℤ :=
  if q - ⌊q⌋ = 1/2 then (if ⌊q⌋ % 2 = 0 then ⌊q⌋ else ⌊q⌋ + 1) else round q

/-- Model of Python's `round(q, n)`: decimal rounding at `n` digits. -/
def pyRoundTo (n : ℕ) (q : ℚ) : ℚ :=
  (pyRound (q * 10 ^ n) : ℚ) / 10 ^ n

/-- Python's `min(max(x, 0.0), 1.0)`. -/
def clampUnit (q : ℚ) : ℚ := min (max q 0) 1

/- ===================== Catalog data model =====================
   From backend/app/catalog/program_catalog_models.py.  `category` and
   risk bands are Python `Literal` strings and are kept as `String`.  -/

structure Course where
  subject_code : String
  subject_name : String
  credit : ℕ
  semester_offering : Option ℕ := none
  category : String := "core"
  elective_group : Option String := none
  prerequisites : List String := []
  corequisites : List String := []
  is_placeholder : Bool := false
deriving DecidableEq, Inhabited

structure ChoicePair where
  option_codes : List String
deriving DecidableEq

/-- `ChoicePair.satisfied`: `any(code in completed for code in option_codes)`. -/
def ChoicePair.satisfied (cp : ChoicePair) (completed : List String) : Bool :=
  cp.option_codes.any (fun code => decide (code ∈ completed))

structure ElectiveGroup where
  group_code : String
  year_level : Option ℕ
  options : List Course := []
deriving DecidableEq

structure ElectiveSlot where
  group_code : String
  count : ℕ := 1
deriving DecidableEq

structure SemesterPlan where
  semester_number : ℕ
  required_courses : List Course := []
  elective_slots : List ElectiveSlot := []
deriving DecidableEq

structure ProgressReport where
  completed_credits : ℕ
  total_credits : ℕ
  outstanding_credits : ℤ
  core_remaining : List String
  discipline_elective_placeholders_remaining : List String
  free_elective_placeholders_remaining : List String
  either_pairs_remaining : List (List String)
  percent_complete : ℚ
deriving DecidableEq

structure ProgrammeVariant where
  programme_code : String
  intake_code : String
  entry_type : String
  semesters : List SemesterPlan := []
  elective_groups : List (String × ElectiveGroup) := []
  prerequisite_graph : List (String × List String) := []
  choice_pairs : List ChoicePair := []
  discipline_elective_placeholders : List String := []
  free_elective_placeholders : List String := []
deriving DecidableEq

/-- `ProgrammeVariant.list_all_courses`: all semester required courses in
order, then each elective-group option not already seen (dedup by
subject code, the `seen` set seeded with the required-course codes). -/
def ProgrammeVariant.list_all_courses (v : ProgrammeVariant) : List Course :=
  let courses := v.semesters.foldl (fun acc sem => acc ++ sem.required_courses) []
  let seen := courses.map (·.subject_code)
  (v.elective_groups.foldl
    (fun acc eg =>
      eg.2.options.foldl
        (fun acc c =>
          if c.subject_code ∈ acc.2 then acc
          else (acc.1 ++ [c], acc.2 ++ [c.subject_code]))
        acc)
    (courses, seen)).1

/-- `ProgrammeVariant.future_courses_for_student`. -/
def ProgrammeVariant.future_courses_for_student (v : ProgrammeVariant)
    (completed_codes : List String) : List Course :=
  v.list_all_courses.filter
    (fun c => decide (c.subject_code ∉ completed_codes) && !c.is_placeholder)

/-- `ProgrammeVariant.compute_progress`: credit totals over the
non-placeholder deduplicated listing, remaining lists, and percent
complete with two-decimal rounding (0.0 when `total_credits` is 0). -/
def ProgrammeVariant.compute_progress (v : ProgrammeVariant)
    (completed_codes : List String) : ProgressReport :=
  let all_courses := v.list_all_courses.filter (fun c => !c.is_placeholder)
  let total_credits := (all_courses.map (·.credit)).sum
  let completed_credits :=
    ((all_courses.filter (fun c => decide (c.subject_code ∈ completed_codes))).map (·.credit)).sum
  let core_remaining :=
    (all_courses.filter (fun c =>
      decide (c.subject_code ∉ completed_codes) &&
      decide (c.category ∈ ["core", "compulsory", "capstone", "internship"]))).map (·.subject_code)
  let discipline_remaining :=
    v.discipline_elective_placeholders.filter (fun slot => decide (slot ∉ completed_codes))
  let free_remaining :=
    v.free_elective_placeholders.filter (fun slot => decide (slot ∉ completed_codes))
  let either_remaining :=
    (v.choice_pairs.filter (fun cp => !cp.satisfied completed_codes)).map (·.option_codes)
  { completed_credits := completed_credits
    total_credits := total_credits
    outstanding_credits := (total_credits : ℤ) - completed_credits
    core_remaining := core_remaining
    discipline_elective_placeholders_remaining := discipline_remaining
    free_elective_placeholders_remaining := free_remaining
    either_pairs_remaining := either_remaining
    percent_complete :=
      if total_credits ≠ 0 then
        pyRoundTo 2 ((completed_credits : ℚ) / (total_credits : ℚ) * 100)
      else 0 }

/- ===================== Risk engine =====================
   From the `RiskEngine` class of program_catalog_models.py.  Student
   metrics arrive as a dict with keys cgpa / attendance / gpa_trend /
   planned_credits (the callers in routes/catalogue.py always supply all
   four), modelled as a structure. -/

structure CourseRisk where
  subject_code : String
  subject_name : String
  predicted_risk : String
  numeric_score : ℚ
  factors : List (String × ℚ)
deriving DecidableEq

structure WhatIfResult where
  selected_subject_codes : List String
  total_credits : ℕ
  aggregated_risk_score : ℚ
  risk_band : String
  per_course : List CourseRisk
deriving DecidableEq

structure StudentMetrics where
  cgpa : ℚ := 0
  attendance : ℚ := 0
  gpa_trend : ℚ := 0
  planned_credits : ℚ := 0
deriving DecidableEq

/-- Risk band of `RiskEngine`: score ≥ 0.7 low, ≥ 0.4 medium, else high. -/
def scoreBand (score : ℚ) : String :=
  if score ≥ 0.7 then "low" else if score ≥ 0.4 then "medium" else "high"

/-- `RiskEngine.compute_course_risk`.  The prerequisite-completion
fraction is 1.0 when the course has no entry (or an empty entry) in the
variant's prerequisite graph; the returned numeric score is the weighted
score rounded to three decimals, while the band is taken from the
unrounded score. -/
def compute_course_risk (v : ProgrammeVariant) (course : Course)
    (m : StudentMetrics) (completed : List String) : CourseRisk :=
  let prereqs := (alookup v.prerequisite_graph course.subject_code).getD []
  let prereqFrac : ℚ :=
    if prereqs = [] then 1
    else ((prereqs.filter (fun p => decide (p ∈ completed))).length : ℚ) / (prereqs.length : ℚ)
  let score :=
    0.30 * prereqFrac +
    0.25 * (m.cgpa / 4) +
    0.15 * ((m.gpa_trend + 1) / 2) +
    0.15 * (m.attendance / 100) +
    0.15 * max 0 (1 - m.planned_credits / 24)
  { subject_code := course.subject_code
    subject_name := course.subject_name
    predicted_risk := scoreBand score
    numeric_score := pyRoundTo 3 score
    factors :=
      [("prereq_completed_ratio", prereqFrac),
       ("cgpa_scaled", m.cgpa / 4),
       ("trend_scaled", (m.gpa_trend + 1) / 2),
       ("attendance_scaled", m.attendance / 100),
       ("workload_penalty", max 0 (1 - m.planned_credits / 24))] }

/-- `RiskEngine.what_if`: resolve planned codes against the variant
listing, inject the total planned credits as the workload metric, score
each resolved course, and aggregate by arithmetic mean (0.0 when no
course resolved) with the same band thresholds. -/
def what_if (v : ProgrammeVariant) (planned_codes : List String)
    (m : StudentMetrics) (completed : List String) : WhatIfResult :=
  let courses := v.list_all_courses.filter (fun c => decide (c.subject_code ∈ planned_codes))
  let total_credits := (courses.map (·.credit)).sum
  let m' := { m with planned_credits := (total_credits : ℚ) }
  let per_course := courses.map (fun c => compute_course_risk v c m' completed)
  let aggregated : ℚ :=
    if per_course ≠ [] then
      (per_course.map (·.numeric_score)).sum / (per_course.length : ℚ)
    else 0
  { selected_subject_codes := planned_codes
    total_credits := total_credits
    aggregated_risk_score := pyRoundTo 3 aggregated
    risk_band := scoreBand aggregated
    per_course := per_course }

/- ===================== BCS electives =====================
   From backend/app/catalog/bcs_electives.py: elective stores by year and
   store version, the intake → store map, and `build_elective_groups`.
   A store maps a group code to (subject_code, subject_name, credit)
   options, in source order. -/

abbrev ElectiveStore := List (String × List (String × String × ℕ))

def ELECTIVES_Y2_2019 : ElectiveStore :=
  [("D1Y2",
    [("PRG2214", "FunctionalProgrammingPrinciples", 4),
     ("NET2102", "DataCommunications", 4),
     ("BIS2216", "DataMiningandKnowledgeDiscoveryFundamentals", 4)]),
   ("D2Y2",
    [("CSC2044", "ConcurrentProgramming", 4),
     ("SEG2102", "DatabaseManagementSystems", 4),
     ("IST2134", "SocialMediaAnalytics", 4)])]

def ELECTIVES_Y3_2019 : ElectiveStore :=
  [("D4Y3",
    [("CSC3044", "ComputerSecurity", 4),
     ("CSC3014", "ComputerVision", 4),
     ("PRG3014", "UI/UXDesignandDevelopment", 4),
     ("CSC3209", "SoftwareArchitectureandDesignPatterns", 4)]),
   ("D5Y3",
    [("CSC3034", "ComputationalIntelligence", 4),
     ("CSC3064", "DatabaseEngineering", 4),
     ("PRG2205", "ProgrammingLanguages", 4)])]

def ELECTIVES_Y2_2021 : ElectiveStore :=
  [("D1Y2",
    [("PRG2214", "FunctionalProgrammingPrinciples", 4),
     ("NET2102", "DataCommunications", 4),
     ("BIS2216", "DataMiningandKnowledgeDiscoveryFundamentals", 4),
     ("IST2334", "WebandNetworkAnalytics", 4)]),
   ("D2Y2",
    [("CSC2044", "ConcurrentProgramming", 4),
     ("SEG2102", "DatabaseManagementSystems", 4),
     ("BIS2216", "DataMiningandKnowledgeDiscoveryFundamentals", 4)])]

def ELECTIVES_Y3_2021 : ElectiveStore := ELECTIVES_Y3_2019

def ELECTIVES_Y2_2022 : ElectiveStore :=
  [("D1Y2",
    [("PRG2214", "FunctionalProgrammingPrinciples", 4),
     ("NET2102", "DataCommunications", 4),
     ("SEG2102", "DatabaseManagementSystems", 4),
     ("IST2334", "WebandNetworkAnalytics", 4),
     ("SWA2124", "SocialandWebAnalytics", 4)]),
   ("D2Y2",
    [("CSC2044", "ConcurrentProgramming", 4),
     ("SEG2102", "DatabaseManagementSystems", 4),
     ("BIS2216", "DataMiningandKnowledgeDiscoveryFundamentals", 4)])]

def ELECTIVES_Y3_2022 : ElectiveStore := ELECTIVES_Y3_2019

def ELECTIVES_Y2_2023 : ElectiveStore :=
  [("D1Y2",
    [("PRG2214", "FunctionalProgrammingPrinciples", 4),
     ("NET2102", "DataCommunications", 4),
     ("PRG2205", "ProgrammingLanguages", 4),
     ("SEG2102", "DatabaseManagementSystems", 4),
     ("NET2201", "ComputerNetworks", 4)]),
   ("D2Y2",
    [("CSC2044", "ConcurrentProgramming", 4),
     ("SEG2102", "DatabaseManagementSystems", 4),
     ("BIS2216", "DataMiningandKnowledgeDiscoveryFundamentals", 4),
     ("SWA2124", "SocialandWebAnalytics", 4)])]

def ELECTIVES_Y3_2023 : ElectiveStore :=
  [("D4Y3",
    [("CSC3044", "ComputerSecurity", 4),
     ("CSC3014", "ComputerVision", 4),
     ("CSC3209", "SoftwareArchitectureandDesignPatterns", 4)]),
   ("D5Y3",
    [("CSC3034", "ComputationalIntelligence", 4),
     ("CSC3064", "DatabaseEngineering", 4),
     ("PRG3014", "UI/UXDesignandDevelopment", 4)])]

def ELECTIVES_Y2_2024 : ElectiveStore :=
  [("D1Y2",
    [("CSC2014", "DigitalImageProcessing", 4),
     ("SWA2124", "SocialandWebAnalytics", 4),
     ("BIS2102", "InformationSystemAnalysis&Design", 4)]),
   ("D2Y2",
    [("PRG2214", "FunctionalProgrammingPrinciples", 4),
     ("NET2102", "DataCommunications", 4),
     ("PRG2205", "ProgrammingLanguages", 4),
     ("SEG2102", "DatabaseManagementSystems", 4)]),
   ("D3Y2",
    [("CSC2044", "ConcurrentProgramming", 4),
     ("BIS2216", "DataMiningandKnowledgeDiscoveryFundamentals", 4),
     ("NET2201", "ComputerNetworks", 4),
     ("CSC2074", "MobileApplicationDevelopment", 4)])]

def ELECTIVES_Y3_2024 : ElectiveStore :=
  [("D4Y3",
    [("CSC3044", "ComputerSecurity", 4),
     ("CSC3014", "ComputerVision", 4),
     ("CSC3209", "SoftwareArchitectureandDesignPatterns", 4)]),
   ("D5Y3",
    [("CSC3034", "ComputationalIntelligence", 4),
     ("CSC3064", "DatabaseEngineering", 4),
     ("PRG3014", "UI/UXDesignandDevelopment", 4),
     ("CSC3074", "Cloud Computing", 4)])]

def ELECTIVES_Y2_2025 : ElectiveStore :=
  [("D1Y2",
    [("CSC2014", "DigitalImageProcessing", 4),
     ("SWA2124", "SocialandWebAnalytics", 4),
     ("BIS2102", "InformationSystemAnalysis&Design", 4)]),
   ("D2Y2",
    [("PRG2214", "FunctionalProgrammingPrinciples", 4),
     ("NET2102", "DataCommunications", 4),
     ("PRG2205", "ProgrammingLanguages", 4),
     ("SEG2102", "DatabaseManagementSystems", 4),
     ("NET3054", "IoTNetworkingandSecurity", 4)]),
   ("D3Y2",
    [("CSC2044", "ConcurrentProgramming", 4),
     ("BIS2216", "DataMiningandKnowledgeDiscoveryFundamentals", 4),
     ("NET2201", "ComputerNetworks", 4),
     ("CSC2074", "MobileApplicationDevelopment", 4)])]

def ELECTIVES_Y3_2025 : ElectiveStore := ELECTIVES_Y3_2024

/-- `INTAKE_TO_STORE`: intake code → (year-2 store, year-3 store). -/
def INTAKE_TO_STORE : List (String × (ElectiveStore × ElectiveStore)) :=
  [("202301", (ELECTIVES_Y2_2023, ELECTIVES_Y3_2023)),
   ("202304", (ELECTIVES_Y2_2023, ELECTIVES_Y3_2023)),
   ("202309", (ELECTIVES_Y2_2023, ELECTIVES_Y3_2023)),
   ("202401", (ELECTIVES_Y2_2024, ELECTIVES_Y3_2024)),
   ("202404", (ELECTIVES_Y2_2024, ELECTIVES_Y3_2024)),
   ("202409", (ELECTIVES_Y2_2024, ELECTIVES_Y3_2024)),
   ("202501", (ELECTIVES_Y2_2025, ELECTIVES_Y3_2025))]

/-- Turn one store group into its `ElectiveGroup` of `Course` options. -/
def storeGroup (year : ℕ) (entry : String × List (String × String × ℕ)) :
    String × ElectiveGroup :=
  (entry.1,
   { group_code := entry.1
     year_level := some year
     options := entry.2.map (fun opt =>
       { subject_code := opt.1
         subject_name := opt.2.1
         credit := opt.2.2
         category := "elective-discipline"
         elective_group := some entry.1 }) })

/-- `build_elective_groups`: the intake's registered store pair, falling
back to the 2023 stores when the intake is not registered; year-2 groups
then year-3 groups, in store order. -/
def build_elective_groups (intake_code : String) : List (String × ElectiveGroup) :=
  let stores := (alookup INTAKE_TO_STORE intake_code).getD (ELECTIVES_Y2_2023, ELECTIVES_Y3_2023)
  stores.1.map (storeGroup 2) ++ stores.2.map (storeGroup 3)

/- ===================== BCS programmes =====================
   From backend/app/catalog/bcs_programs.py: static per-variant tables
   and `build_variant` / `load_bcs_variants`. -/

/-- Python's `in` on strings (substring membership), over char lists. -/
def charsStart (sub s : List Char) : Bool :=
  match sub, s with
  | [], _ => true
  | _ :: _, [] => false
  | a :: as, b :: bs => decide (a = b) && charsStart as bs

def charsContain (s sub : List Char) : Bool :=
  charsStart sub s ||
    match s with
    | [] => false
    | _ :: rest => charsContain rest sub

def strContains (s sub : String) : Bool := charsContain s.toList sub.toList

/-- Python's `str.startswith`. -/
def strStarts (s pre : String) : Bool := charsStart pre.toList s.toList

/-- Python's `key.split('-')`, over char lists. -/
def charsSplitDash (cur : List Char) : List Char → List (List Char)
  | [] => [cur]
  | c :: cs => if c = '-' then cur :: charsSplitDash [] cs else charsSplitDash (cur ++ [c]) cs

def splitDash (s : String) : List String :=
  (charsSplitDash [] s.toList).map (fun cs => String.mk cs)

def EITHER_PAIRS : List (List String) :=
  [["MPU3193", "MPU3203"],
   ["MPU3183", "MPU3213"]]

def DISC_ELECTIVE_CODES : List String := ["D1Y2", "D2Y2", "D4Y3", "D5Y3"]

def FREE_ELECTIVE_CODES : List String := ["*F1", "*F2", "*F3"]

def PLACEHOLDER_NAMES : List (String × String) :=
  [("D1Y2", "Discipline Elective Y2 Slot 1"),
   ("D2Y2", "Discipline Elective Y2 Slot 2"),
   ("D4Y3", "Discipline Elective Y3 Slot 1"),
   ("D5Y3", "Discipline Elective Y3 Slot 2"),
   ("*F1", "Free Elective 1"),
   ("*F2", "Free Elective 2"),
   ("*F3", "Free Elective 3")]

/-- `VARIANT_SPECS`: (intake, entry_type, precalc flag). -/
def VARIANT_SPECS : List (String × String × Bool) :=
  [("202301", "normal", false),
   ("202301", "precalc", true),
   ("202301", "direct", false),
   ("202304", "normal", false),
   ("202304", "precalc", true),
   ("202304", "direct", false),
   ("202309", "normal", false),
   ("202309", "precalc", true)]

def COMMON_COURSES : List (String × String × ℕ) :=
  [("ENG1044", ("EnglishforComputerTechnologyStudies", 4)),
   ("CSC1202", ("ComputerOrganisation", 4)),
   ("MTH1114", ("ComputerMathematics", 4)),
   ("CSC1024", ("ProgrammingPrinciples", 4)),
   ("PRG1203", ("Object-OrientedProgrammingFundamentals", 4)),
   ("SEG1201", ("DatabaseFundamentals", 4)),
   ("NET1014", ("NetworkingPrinciples", 4)),
   ("WEB1201", ("WebFundamentals", 4)),
   ("CSC2104", ("OperatingSystemFundamentals", 4)),
   ("SEG2202", ("SoftwareEngineering", 4)),
   ("CSC2103", ("DataStructures&Algorithms", 4)),
   ("PRG2104", ("Object-OrientedProgramming", 4)),
   ("ENG2042", ("CommunicationSkills", 2)),
   ("ENG2044", ("CommunicationSkills", 4)),
   ("CSC2014", ("DigitalImageProcessing", 4)),
   ("NET2201", ("ComputerNetworks", 4)),
   ("CSC3024", ("HumanComputerInteraction", 4)),
   ("SEG3203", ("Internship", 6)),
   ("CSC3206", ("ArtificialIntelligence", 4)),
   ("PRJ3213", ("CapstoneProject1", 3)),
   ("PRJ3223", ("CapstoneProject2", 3)),
   ("NET3204", ("DistributedSystems", 4)),
   ("MAT1013", ("Micro-credentialinComputerMathematicsFundamentals", 4)),
   ("OSS1014", ("OperatingSystemFundamentals", 4)),
   ("BIS2212(MU32422)", ("SocialandProfessionalResponsibilities", 2)),
   ("ENG2042(MU22812)", ("CommunicationSkills", 2)),
   ("MU42422", ("CommunityService", 2)),
   ("MPU2012", ("EntrepreneurialMindsetandSkills", 2)),
   ("MPU3422", ("CommunityServiceforPlanetaryHealth", 2)),
   ("MPU3332", ("IntegrityandAntiCorruption(KIAR)", 2))]

def SEM_MAPPING : List (String × List (String × ℕ)) :=
  [("202301-normal",
    [("ENG1044", 2), ("CSC1202", 2), ("MTH1114", 2), ("CSC1024", 2),
     ("PRG1203", 3), ("SEG1201", 3), ("NET1014", 3), ("WEB1201", 3),
     ("CSC2104", 5), ("SEG2202", 5), ("CSC2103", 5), ("PRG2104", 5), ("ENG2042(MU22812)", 5),
     ("CSC2014", 6), ("NET2201", 6), ("CSC3024", 6),
     ("CSC3206", 8), ("PRJ3213", 8), ("MU42422", 8),
     ("PRJ3223", 9), ("NET3204", 9), ("SEG3203", 7),
     ("BIS2212(MU32422)", 4)]),
   ("202301-precalc",
    [("MAT1013", 1),
     ("ENG1044", 2), ("CSC1202", 2), ("CSC1024", 2), ("NET1014", 2),
     ("MTH1114", 3), ("PRG1203", 3), ("SEG1201", 3), ("WEB1201", 3),
     ("CSC2104", 5), ("SEG2202", 5), ("CSC2103", 5), ("PRG2104", 5), ("ENG2042(MU22812)", 5),
     ("CSC2014", 6), ("NET2201", 6), ("CSC3024", 6),
     ("CSC3206", 8), ("PRJ3213", 8), ("MU42422", 8),
     ("PRJ3223", 9), ("NET3204", 9), ("SEG3203", 7),
     ("BIS2212(MU32422)", 4)]),
   ("202301-direct",
    [("ENG1044", 2), ("CSC1202", 2), ("MTH1114", 2), ("CSC1024", 2),
     ("PRG1203", 3), ("SEG1201", 3), ("NET1014", 3), ("WEB1201", 3),
     ("CSC2104", 4), ("SEG2202", 5), ("CSC2103", 5), ("PRG2104", 5), ("ENG2042(MU22812)", 5),
     ("CSC2014", 6), ("NET2201", 5), ("CSC3024", 5),
     ("CSC3206", 8), ("PRJ3213", 8), ("MU42422", 4),
     ("PRJ3223", 8), ("NET3204", 8), ("SEG3203", 9),
     ("BIS2212(MU32422)", 4)]),
   ("202304-normal",
    [("ENG1044", 1), ("CSC1202", 1), ("MTH1114", 1), ("CSC1024", 1),
     ("PRG1203", 2), ("SEG1201", 2), ("WEB1201", 2), ("OSS1014", 2),
     ("NET1014", 3),
     ("CSC2014", 4), ("CSC2103", 4), ("PRG2104", 4), ("ENG2044", 4),
     ("CSC3206", 7), ("PRJ3213", 7), ("PRJ3223", 8), ("NET3204", 8), ("SEG3203", 9)]),
   ("202304-precalc",
    [("MAT1013", 1), ("ENG1044", 1), ("CSC1202", 1), ("CSC1024", 1), ("WEB1201", 1),
     ("MTH1114", 2), ("PRG1203", 2), ("SEG1201", 2), ("OSS1014", 2),
     ("NET1014", 3),
     ("CSC2014", 4), ("CSC2103", 4), ("PRG2104", 4), ("ENG2044", 4),
     ("CSC3206", 7), ("PRJ3213", 7), ("PRJ3223", 8), ("NET3204", 8), ("SEG3203", 9)]),
   ("202304-direct",
    [("ENG1044", 2), ("CSC1202", 2), ("MTH1114", 2), ("CSC1024", 2),
     ("PRG1203", 3), ("SEG1201", 3), ("WEB1201", 3), ("OSS1014", 3),
     ("NET1014", 6),
     ("CSC2014", 5), ("CSC2103", 4), ("PRG2104", 4), ("ENG2042(MU22812)", 4),
     ("CSC3024", 5), ("NET2201", 5),
     ("CSC3206", 7), ("PRJ3213", 7), ("PRJ3223", 8), ("NET3204", 8), ("SEG3203", 9)]),
   ("202309-normal",
    [("ENG1044", 1), ("CSC1202", 1), ("MTH1114", 1), ("CSC1024", 1),
     ("NET1014", 2),
     ("PRG1203", 3), ("SEG1201", 3), ("WEB1201", 3), ("OSS1014", 3),
     ("CSC2103", 9), ("CSC2014", 6), ("PRG2104", 6), ("ENG2044", 6), ("CSC3206", 6),
     ("PRJ3213", 7), ("CSC3024", 7), ("NET3204", 7), ("SEG3203", 8), ("PRJ3223", 9)]),
   ("202309-precalc",
    [("MAT1013", 1), ("ENG1044", 1), ("CSC1202", 1), ("CSC1024", 1), ("WEB1201", 1),
     ("NET1014", 2),
     ("MTH1114", 3), ("PRG1203", 3), ("SEG1201", 3), ("OSS1014", 3),
     ("CSC2103", 9), ("CSC2014", 6), ("PRG2104", 6), ("ENG2044", 6), ("CSC3206", 6),
     ("PRJ3213", 7), ("CSC3024", 7), ("NET3204", 7), ("SEG3203", 8), ("PRJ3223", 9)])]

/-- `PLACEHOLDER_COUNTS`: every variant has one slot of each placeholder. -/
def PLACEHOLDER_COUNTS : List (String × List (String × ℕ)) :=
  (SEM_MAPPING.map (·.1)).map (fun key =>
    (key, [("D1Y2", 1), ("D2Y2", 1), ("D4Y3", 1), ("D5Y3", 1), ("*F1", 1), ("*F2", 1), ("*F3", 1)]))

def CATEGORY_OVERRIDES : List (String × String) :=
  [("PRJ3213", "capstone"),
   ("PRJ3223", "capstone"),
   ("SEG3203", "internship"),
   ("BIS2212(MU32422)", "compulsory"),
   ("ENG2042(MU22812)", "compulsory"),
   ("ENG2044", "compulsory"),
   ("MU42422", "compulsory"),
   ("MPU2012", "compulsory"),
   ("MPU3422", "compulsory"),
   ("MPU3332", "compulsory")]

/-- `semester_plans.setdefault(sem, SemesterPlan(sem)).required_courses.append(course)`
on an insertion-ordered association list keyed by semester number. -/
def plansAppend (plans : List (ℕ × SemesterPlan)) (sem : ℕ) (course : Course) :
    List (ℕ × SemesterPlan) :=
  match plans with
  | [] => [(sem, { semester_number := sem, required_courses := [course] })]
  | (k, pl) :: rest =>
    if k = sem then
      (k, { pl with required_courses := pl.required_courses ++ [course] }) :: rest
    else (k, pl) :: plansAppend rest sem course

/-- `semester_plans.setdefault(sem, SemesterPlan(sem))` with the result unused. -/
def plansEnsure (plans : List (ℕ × SemesterPlan)) (sem : ℕ) : List (ℕ × SemesterPlan) :=
  match plans with
  | [] => [(sem, { semester_number := sem })]
  | (k, pl) :: rest =>
    if k = sem then (k, pl) :: rest else (k, pl) :: plansEnsure rest sem

/-- Insertion sort on ℕ, the model of Python `sorted` over the plan keys. -/
def insertSorted (n : ℕ) : List ℕ → List ℕ
  | [] => [n]
  | m :: ms => if n ≤ m then n :: m :: ms else m :: insertSorted n ms

def sortKeys (l : List ℕ) : List ℕ := l.foldr insertSorted []

/-- Helper `c(...)` of bcs_programs.py. -/
def mkCourse (code name : String) (credit sem : ℕ) (category : String)
    (placeholder : Bool) : Course :=
  { subject_code := code
    subject_name := name
    credit := credit
    semester_offering := some sem
    category := category
    is_placeholder := placeholder }

/-- `build_variant(key)`. -/
def build_variant (key : String) : ProgrammeVariant :=
  let intake := (splitDash key).getD 0 ""
  let entry_type := (splitDash key).getD 1 ""
  let sem_map := (alookup SEM_MAPPING key).getD []
  -- core curriculum loop
  let plans := sem_map.foldl
    (fun plans entry =>
      let code := entry.1
      let sem := entry.2
      let nc := (alookup COMMON_COURSES code).getD ("", 0)
      let category := (alookup CATEGORY_OVERRIDES code).getD "core"
      plansAppend plans sem (mkCourse code nc.1 nc.2 sem category false))
    []
  -- either-subject pairs (only a plan-slot side effect plus choice_pairs)
  let pairsApply := strContains key "normal" || strContains key "precalc"
  let pair_sem : ℕ :=
    if strStarts key "202301" then (if strContains key "precalc" then 1 else 1)
    else if strStarts key "202304" then (if strContains key "normal" then 3 else 3)
    else if strStarts key "202309" then 2
    else 1
  let plans := if pairsApply then EITHER_PAIRS.foldl (fun ps _ => plansEnsure ps pair_sem) plans else plans
  let choice_pairs := if pairsApply then EITHER_PAIRS.map (fun p => ChoicePair.mk p) else []
  -- placeholder elective slots
  let placeholder_counts := (alookup PLACEHOLDER_COUNTS key).getD []
  let st := placeholder_counts.foldl
    (fun (st : List (ℕ × SemesterPlan) × List String × List String) phEntry =>
      let ph_code := phEntry.1
      let count := phEntry.2
      let category := if strStarts ph_code "*F" then "elective-free" else "elective-discipline"
      let plans := (List.range count).foldl
        (fun plans i =>
          let allocate_sem := max 4 (min 9 (3 + i + 1))
          let name := (alookup PLACEHOLDER_NAMES ph_code).getD ph_code
          plansAppend plans allocate_sem (mkCourse ph_code name 4 allocate_sem category true))
        st.1
      if strStarts ph_code "*F" then (plans, st.2.1, st.2.2 ++ [ph_code])
      else (plans, st.2.1 ++ [ph_code], st.2.2))
    (plans, [], [])
  let plans := st.1
  { programme_code := "BCS"
    intake_code := intake
    entry_type := entry_type
    semesters := (sortKeys (plans.map (·.1))).map (fun s =>
      (alookup plans s).getD { semester_number := s })
    elective_groups := build_elective_groups intake
    choice_pairs := choice_pairs
    discipline_elective_placeholders := st.2.1
    free_elective_placeholders := st.2.2 }

/-- `load_bcs_variants()`: key → variant, keys formed as in the Python
f-string `f"{intake}-{entry_type if not precalc_flag else 'precalc'}"`. -/
def load_bcs_variants : List (String × ProgrammeVariant) :=
  VARIANT_SPECS.map (fun spec =>
    let key := spec.1 ++ "-" ++ (if spec.2.2 then "precalc" else spec.2.1)
    (key, build_variant key))

/- ===================== Success prediction service =====================
   From backend/app/services/subject_prediction_service.py.  A student's
   parsed grade record (the `student_subjects` dict) maps a subject code
   to its row; cohort statistics map a subject code to the aggregate
   entry computed at service start.  The free-text recommendation of
   `_generate_recommendation` is presentation-only string assembly and is
   not modelled. -/

structure SubjRecord where
  subject_name : String
  grade : String
  grade_points : Option ℚ
deriving DecidableEq

structure CohortStat where
  pass_rate : ℚ
  avg_score : Option ℚ
  avg_gpa : Option ℚ
  total_students : ℕ
  subject_name : String
deriving DecidableEq

structure PrerequisitePerformance where
  subject_code : String
  subject_name : String
  grade : String
  grade_points : ℚ
  weight : ℚ
  impact_score : ℚ
deriving DecidableEq

structure MLPrediction where
  success_probability : ℚ
  confidence : ℚ
  top_factors : List (String × ℚ)
  risk_level : String
deriving DecidableEq

structure SubjectPrediction where
  subject_code : String
  subject_name : String
  risk_level : String
  predicted_success_probability : ℚ
  weighted_prereq_gpa : ℚ
  prereq_performance : List PrerequisitePerformance
  missing_prereqs : List String
  cohort_pass_rate : Option ℚ
  cohort_avg_score : Option ℚ
  ml_probability : Option ℚ
  ml_confidence : Option ℚ
  ml_top_factors : Option (List (String × ℚ))
  prediction_method : String
deriving DecidableEq

/-- `GRADE_POINTS`: grade → grade points (`none` for the ungraded
markers P / EX / INC / W). -/
def GRADE_POINTS : List (String × Option ℚ) :=
  [("A+", some 4.0), ("A", some 4.0), ("A-", some 3.7),
   ("B+", some 3.3), ("B", some 3.0), ("B-", some 2.7),
   ("C+", some 2.3), ("C", some 2.0), ("C-", some 1.7),
   ("D+", some 1.3), ("D", some 1.0), ("D-", some 0.7),
   ("E", some 0.5), ("F", some 0.0), ("F*", some 0.0),
   ("P", none), ("EX", none), ("INC", none), ("W", none)]

/-- `SUBJECT_PREREQUISITES`: target subject → [(prereq code, weight)]. -/
def SUBJECT_PREREQUISITES : List (String × List (String × ℚ)) :=
  [("SEG2102", [("SEG1201", 0.9)]),
   ("CSC3064", [("SEG2102", 0.8), ("SEG1201", 0.5)]),
   ("BIS2216", [("SEG1201", 0.6)]),
   ("BIS3216", [("BIS2216", 0.8), ("SEG1201", 0.4)]),
   ("PRG1203", [("CSC1024", 0.9)]),
   ("PRG2104", [("PRG1203", 0.9), ("CSC1024", 0.4)]),
   ("CSC2103", [("PRG1203", 0.8), ("CSC1024", 0.5)]),
   ("CSC2044", [("PRG2104", 0.7), ("PRG1203", 0.5)]),
   ("PRG2205", [("PRG2104", 0.7), ("CSC2103", 0.5)]),
   ("PRG2214", [("PRG1203", 0.7), ("CSC1024", 0.5)]),
   ("SEG2202", [("PRG1203", 0.6), ("SEG1201", 0.5)]),
   ("CSC3209", [("SEG2202", 0.8), ("PRG2104", 0.6)]),
   ("PRG3014", [("SEG2202", 0.5), ("CSC3024", 0.6)]),
   ("CSC3206", [("CSC2103", 0.7), ("MTH1114", 0.5)]),
   ("CSC3034", [("CSC3206", 0.8), ("CSC2103", 0.4)]),
   ("CSC3014", [("CSC2014", 0.7), ("CSC3206", 0.5)]),
   ("CSC2014", [("MTH1114", 0.5), ("CSC1024", 0.4)]),
   ("NET2201", [("NET1014", 0.9)]),
   ("NET2102", [("NET1014", 0.8)]),
   ("NET2103", [("NET2201", 0.7), ("CSC2104", 0.5)]),
   ("NET3014", [("NET2201", 0.8), ("NET2102", 0.5)]),
   ("NET3106", [("NET2201", 0.7), ("CSC3044", 0.6)]),
   ("NET3204", [("NET2201", 0.7), ("CSC2104", 0.5)]),
   ("NET3207", [("NET2201", 0.8), ("NET2103", 0.6)]),
   ("MMD3105", [("NET2201", 0.6)]),
   ("CSC3044", [("NET2201", 0.6), ("CSC2104", 0.5)]),
   ("SEC3024", [("CSC3044", 0.8), ("NET2201", 0.5)]),
   ("SEC3014", [("NET3106", 0.8), ("CSC3044", 0.5)]),
   ("SEC3034", [("SEC3024", 0.7), ("CSC3044", 0.6)]),
   ("SEC3044", [("CSC3044", 0.8), ("SEC3024", 0.6)]),
   ("CSC2104", [("CSC1202", 0.7), ("CSC1024", 0.5)]),
   ("OSS1014", [("CSC1202", 0.7), ("CSC1024", 0.5)]),
   ("WEB2202", [("WEB1201", 0.9), ("PRG1203", 0.5)]),
   ("MTH2103", [("MTH1114", 0.8), ("IST1024", 0.5)]),
   ("IST2024", [("IST1024", 0.7), ("MTH1114", 0.4)]),
   ("IST2334", [("SEG1201", 0.5), ("NET1014", 0.4)]),
   ("IST2134", [("IST1024", 0.5)]),
   ("IST2234", [("IST1024", 0.6), ("IST2034", 0.5)]),
   ("IST3134", [("SEG2102", 0.6), ("IST2024", 0.5)]),
   ("IST3144", [("IST2024", 0.7)]),
   ("IST3244", [("IST2024", 0.8), ("IST2234", 0.5)]),
   ("BIS3218", [("BIS2216", 0.7), ("SEG2102", 0.5)]),
   ("PRJ3213", [("SEG2202", 0.6), ("PRG2104", 0.5)]),
   ("PRJ3223", [("PRJ3213", 0.9)]),
   ("CSC3024", [("SEG2202", 0.4), ("PRG1203", 0.4)])]

/-- `RISK_THRESHOLDS`. -/
def RISK_THRESHOLD_HIGH : ℚ := 2.0
def RISK_THRESHOLD_MEDIUM : ℚ := 2.7
def RISK_THRESHOLD_LOW : ℚ := 3.3

/-- Risk band from the weighted prerequisite GPA (step 4 of §4.3). -/
def gpaBand (wgpa : ℚ) : String :=
  if wgpa ≥ RISK_THRESHOLD_LOW then "low"
  else if wgpa ≥ RISK_THRESHOLD_MEDIUM then "medium"
  else if wgpa ≥ RISK_THRESHOLD_HIGH then "high"
  else "very_high"

/-- One-step risk escalation applied when a prerequisite is missing:
low → medium, medium → high, anything else unchanged. -/
def escalateBand (band : String) : String :=
  if band = "low" then "medium" else if band = "medium" then "high" else band

/-- The prerequisite-analysis loop of `_predict_with_subjects`
(lines 341-359): walk the target's prerequisite list accumulating
`prereq_performance`, `missing_prereqs`, `total_weighted_score` and
`total_weight`.  A prerequisite present in the record but without
numeric grade points contributes to none of the accumulators. -/
def analyzePrereqs (subjects : List (String × SubjRecord))
    (prereqs : List (String × ℚ)) :
    List PrerequisitePerformance × List String × ℚ × ℚ :=
  prereqs.foldl
    (fun acc entry =>
      let prereq_code := entry.1
      let weight := entry.2
      match alookup subjects prereq_code with
      | some subj =>
        match subj.grade_points with
        | some gp =>
          let impact := gp * weight
          (acc.1 ++ [{ subject_code := prereq_code
                       subject_name := subj.subject_name
                       grade := subj.grade
                       grade_points := gp
                       weight := weight
                       impact_score := impact }],
           acc.2.1, acc.2.2.1 + impact, acc.2.2.2 + weight)
        | none => acc
      | none => (acc.1, acc.2.1 ++ [prereq_code], acc.2.2))
    ([], [], 0, 0)

/-- The rule-based part of `_predict_with_subjects` (lines 333-405):
weighted prerequisite GPA, success probability and risk level before
the hybrid fusion step, including the missing-prerequisite penalty. -/
def rulePrediction (stats : List (String × CohortStat))
    (subjects : List (String × SubjRecord)) (target : String) : ℚ × String :=
  let prereqs := (alookup SUBJECT_PREREQUISITES target).getD []
  let a := analyzePrereqs subjects prereqs
  let missing := a.2.1
  let total_weighted_score := a.2.2.1
  let total_weight := a.2.2.2
  let weighted_prereq_gpa := if 0 < total_weight then total_weighted_score / total_weight else 0
  let cohort_pass_rate := (alookup stats target).map (·.pass_rate)
  let pr :=
    if total_weight = 0 then
      (match cohort_pass_rate with
       | some rate => rate
       | none => 0.7, "unknown")
    else
      let base := 0.2 + weighted_prereq_gpa / 4 * 0.75
      let blended :=
        match cohort_pass_rate with
        | some rate => base * 0.7 + rate * 0.3
        | none => base
      (blended, gpaBand weighted_prereq_gpa)
  if missing ≠ [] then (pr.1 * 0.8, escalateBand pr.2) else pr

/-- `_predict_with_subjects`: rule-based pipeline, then hybrid fusion
when a classifier result is available (`precomputed_ml`, or the adapter
call when the service is loaded; `mlResult = none` covers both an absent
adapter and a `None` adapter result).  The returned probability is
clamped to [0,1]. -/
def predictWithSubjects (stats : List (String × CohortStat))
    (subjects : List (String × SubjRecord)) (target : String)
    (mlResult : Option MLPrediction) : SubjectPrediction :=
  let prereqs := (alookup SUBJECT_PREREQUISITES target).getD []
  let a := analyzePrereqs subjects prereqs
  let prereq_performance := a.1
  let missing := a.2.1
  let total_weight := a.2.2.2
  let weighted_prereq_gpa := if 0 < total_weight then a.2.2.1 / total_weight else 0
  let cohort := alookup stats target
  let cohort_pass_rate := cohort.map (·.pass_rate)
  let cohort_avg_score := cohort.bind (·.avg_score)
  let subject_name := (cohort.map (·.subject_name)).getD target
  let rule := rulePrediction stats subjects target
  match mlResult with
  | some ml =>
    { subject_code := target
      subject_name := subject_name
      risk_level := ml.risk_level
      predicted_success_probability := clampUnit (ml.success_probability * 0.7 + rule.1 * 0.3)
      weighted_prereq_gpa := weighted_prereq_gpa
      prereq_performance := prereq_performance
      missing_prereqs := missing
      cohort_pass_rate := cohort_pass_rate
      cohort_avg_score := cohort_avg_score
      ml_probability := some ml.success_probability
      ml_confidence := some ml.confidence
      ml_top_factors := some ml.top_factors
      prediction_method := "hybrid" }
  | none =>
    { subject_code := target
      subject_name := subject_name
      risk_level := rule.2
      predicted_success_probability := clampUnit rule.1
      weighted_prereq_gpa := weighted_prereq_gpa
      prereq_performance := prereq_performance
      missing_prereqs := missing
      cohort_pass_rate := cohort_pass_rate
      cohort_avg_score := cohort_avg_score
      ml_probability := none
      ml_confidence := none
      ml_top_factors := none
      prediction_method := "rule-based" }

/- ===================== Classifier adapter =====================
   From backend/app/services/ml_prediction_service.py.  The trained
   random-forest model and the pandas feature frame are external: the
   feature-preparation step is an abstract `prep : ι → Option F`
   (`prepare_features`, `None` on failure), the model's class-1
   probability an abstract `proba : F → ℚ` (`predict_proba(X)[0][1]`,
   applied row-wise on a batched frame), and the importance ranking an
   abstract `factors : F → List (String × ℚ)` (`_get_top_factors`). -/

/-- Risk bands of `MLPredictionService.predict` / `predict_batch`. -/
def mlRiskBand (p : ℚ) : String :=
  if p ≥ 0.80 then "low"
  else if p ≥ 0.65 then "medium"
  else if p ≥ 0.50 then "high"
  else "very_high"

/-- Assembly of one `MLPrediction` from a class-1 probability and top
factors: confidence = |p − 0.5| × 2, risk level from the adapter's own
bands. -/
def mkMLPrediction (p : ℚ) (tf : List (String × ℚ)) : MLPrediction :=
  { success_probability := p
    confidence := |p - 0.5| * 2
    top_factors := tf
    risk_level := mlRiskBand p }

/-- `MLPredictionService.predict`: `None` when the model is unavailable
or feature preparation fails. -/
def mlPredict {ι F : Type} (available : Bool) (prep : ι → Option F)
    (proba : F → ℚ) (factors : F → List (String × ℚ)) (inp : ι) :
    Option MLPrediction :=
  if available then
    match prep inp with
    | none => none
    | some X => some (mkMLPrediction (proba X) (factors X))
  else none

/-- `enumerate(feature_dfs)` filtered to the non-`None` entries, paired
with their positions (the `valid_indices` / `valid_features` pair of
`predict_batch`), starting at position `k`. -/
def gatherValid {F : Type} (k : ℕ) : List (Option F) → List (ℕ × F)
  | [] => []
  | none :: rest => gatherValid (k + 1) rest
  | some X :: rest => (k, X) :: gatherValid (k + 1) rest

/-- `MLPredictionService.predict_batch`: prepare all features, batch the
valid ones through one model call (row-wise `predict_proba`), and
scatter the results back to their original positions, `None` elsewhere. -/
def mlPredictBatch {ι F : Type} (available : Bool) (prep : ι → Option F)
    (proba : F → ℚ) (factors : F → List (String × ℚ)) (inps : List ι) :
    List (Option MLPrediction) :=
  if available then
    let feature_dfs := inps.map prep
    let validPairs := gatherValid 0 feature_dfs
    if validPairs.isEmpty then List.replicate inps.length none
    else
      let probas := validPairs.map (fun p => proba p.2)
      (validPairs.zip probas).foldl
        (fun results pp =>
          results.set pp.1.1 (some (mkMLPrediction pp.2 (factors pp.1.2))))
        (List.replicate inps.length none)
  else List.replicate inps.length none

/- ===================== Prerequisite chain =====================
   From `SubjectPredictionService.get_prerequisite_chain`: recursive
   closure over a static graph, cycle-guarded by a visited set and
   depth-capped at 5.  The Python recursion carries no fuel; here a fuel
   argument makes the recursion structural, and the fuel-irrelevance
   theorem below shows any fuel > 6 computes the same fixed point, which
   is the Python function's value. -/

structure ChainDirectEntry where
  code : String
  name : String
  weight : ℚ
deriving DecidableEq

structure ChainFullEntry where
  code : String
  name : String
  depth : ℕ
deriving DecidableEq

structure ChainAcc where
  visited : List String := []
  direct : List ChainDirectEntry := []
  full : List ChainFullEntry := []
deriving DecidableEq

structure PrereqChain where
  subject_code : String
  subject_name : String
  direct_prerequisites : List ChainDirectEntry
  full_chain : List ChainFullEntry
deriving DecidableEq

mutual
/-- The inner `traverse(code, depth)` closure: stop on a visited code or
`depth > 5`, otherwise mark visited and walk the prerequisite list. -/
def chainTraverse (g : List (String × List (String × ℚ)))
    (stats : List (String × CohortStat)) :
    ℕ → String → ℕ → ChainAcc → ChainAcc
  | 0, _, _, st => st
  | fuel + 1, code, depth, st =>
    if code ∈ st.visited ∨ 5 < depth then st
    else
      chainTraverse.walk g stats fuel ((alookup g code).getD []) depth
        { st with visited := code :: st.visited }
termination_by fuel _ _ _ => (fuel, 0)

/-- The `for prereq_code, weight in prereq_list` loop body: append the
direct entry at depth 0, always append the full-chain entry, recurse. -/
def chainTraverse.walk (g : List (String × List (String × ℚ)))
    (stats : List (String × CohortStat)) :
    ℕ → List (String × ℚ) → ℕ → ChainAcc → ChainAcc
  | _, [], _, st => st
  | fuel, pw :: rest, depth, st =>
    let prereq_name := ((alookup stats pw.1).map (·.subject_name)).getD pw.1
    let st1 :=
      if depth = 0 then
        { st with direct := st.direct ++ [{ code := pw.1, name := prereq_name, weight := pw.2 }] }
      else st
    let st2 := { st1 with full := st1.full ++ [{ code := pw.1, name := prereq_name, depth := depth + 1 }] }
    chainTraverse.walk g stats fuel rest depth (chainTraverse g stats fuel pw.1 (depth + 1) st2)
termination_by fuel l _ _ => (fuel, l.length + 1)
end

/-- `get_prerequisite_chain(subject_code)` over the curated static
graph, starting from an empty accumulator at depth 0.  Fuel 7 exceeds
the depth cap, so by fuel-irrelevance this is the Python recursion's
value. -/
def get_prerequisite_chain (stats : List (String × CohortStat))
    (subject_code : String) : PrereqChain :=
  let st := chainTraverse SUBJECT_PREREQUISITES stats 7 subject_code 0 {}
  { subject_code := subject_code
    subject_name := ((alookup stats subject_code).map (·.subject_name)).getD subject_code
    direct_prerequisites := st.direct
    full_chain := st.full }

/-- Total number of prerequisite edges of a graph whose source has not
been visited: the potential that bounds the growth of `full_chain`. -/
def unvisitedEdges (g : List (String × List (String × ℚ))) (visited : List String) : ℕ :=
  ((g.filter (fun e => decide (e.1 ∉ visited))).map (fun e => e.2.length)).sum

/- ===================== Catalogue route lookups =====================
   From backend/app/routes/catalogue.py (`get_variant_courses`), with the
   HTTP error modelled as an `Except` carrying status code and detail. -/

structure CourseInfo where
  subject_code : String
  subject_name : String
  credit : ℕ
  semester_offering : Option ℕ
  category : String
  elective_group : Option String
  prerequisites : List String
  is_placeholder : Bool
deriving DecidableEq

def toCourseInfo (c : Course) : CourseInfo :=
  { subject_code := c.subject_code
    subject_name := c.subject_name
    credit := c.credit
    semester_offering := c.semester_offering
    category := c.category
    elective_group := c.elective_group
    prerequisites := c.prerequisites
    is_placeholder := c.is_placeholder }

structure VariantCoursesResponse where
  variant : String
  total_courses : ℕ
  courses : List CourseInfo
deriving DecidableEq

/-- `GET /variant/{variant_key}/courses`: a hard 404 when the key is not
in the variant map, otherwise the full course listing. -/
def get_variant_courses (variant_key : String) :
    Except (ℕ × String) VariantCoursesResponse :=
  match alookup load_bcs_variants variant_key with
  | none => Except.error (404, "Variant not found")
  | some v =>
    Except.ok
      { variant := variant_key
        total_courses := v.list_all_courses.length
        courses := v.list_all_courses.map toCourseInfo }

/- ===================== Spec-level formulations =====================
   Definitions written from the spec's and claims' wording, used to
   state the claim theorems against the source-translated functions
   above. -/

/-- First-seen-order deduplication of a code sequence. -/
def dedupFirst (l : List String) : List String :=
  l.foldl (fun acc c => if c ∈ acc then acc else acc ++ [c]) []

/-- Every subject code referenced anywhere in the variant, in reference
order: each semester's required courses (semester order), then each
elective group's options (insertion order). -/
def referencedCourseCodes (v : ProgrammeVariant) : List String :=
  ((v.semesters.foldl (fun acc sem => acc ++ sem.required_courses) []).map (·.subject_code)) ++
  ((v.elective_groups.foldl (fun acc eg => acc ++ eg.2.options) []).map (·.subject_code))

def variantKeys : List String := load_bcs_variants.map (·.1)

/-- The present-with-a-numeric-grade prerequisites with their grade
points and weights: the spec-level reading of the analysis loop. -/
def presentContribs (subjects : List (String × SubjRecord))
    (prereqs : List (String × ℚ)) : List (String × ℚ × ℚ) :=
  prereqs.filterMap (fun pw =>
    match alookup subjects pw.1 with
    | some r =>
      match r.grade_points with
      | some gp => some (pw.1, gp, pw.2)
      | none => none
    | none => none)

/-- The prerequisites absent from the student's record. -/
def absentPrereqs (subjects : List (String × SubjRecord))
    (prereqs : List (String × ℚ)) : List String :=
  (prereqs.filter (fun pw => (alookup subjects pw.1).isNone)).map (·.1)

/-- A prerequisite present in the record with a numeric grade. -/
def prereqPresentGraded (subjects : List (String × SubjRecord)) (code : String) : Bool :=
  ((alookup subjects code).bind (·.grade_points)).isSome

/-- A prerequisite absent from the record. -/
def prereqAbsent (subjects : List (String × SubjRecord)) (code : String) : Bool :=
  (alookup subjects code).isNone

/-- A prerequisite present in the record but carrying no numeric grade
points (P / EX / INC / W style rows). -/
def prereqPresentUngraded (subjects : List (String × SubjRecord)) (code : String) : Bool :=
  match alookup subjects code with
  | some r => r.grade_points.isNone
  | none => false

/-- Claim C3 as stated: the unknown-branch is taken exactly on targets
with zero defined prerequisites; any target with at least one defined
prerequisite gets the base-probability formula, the cohort blend, the
0.8 missing penalty and the weighted-GPA risk band with escalation. -/
def ClaimC3Stated : Prop :=
  ∀ (stats : List (String × CohortStat)) (subjects : List (String × SubjRecord))
    (target : String),
    let prereqs := (alookup SUBJECT_PREREQUISITES target).getD []
    let r := rulePrediction stats subjects target
    let passRate := (alookup stats target).map (·.pass_rate)
    let contribs := presentContribs subjects prereqs
    let missing := absentPrereqs subjects prereqs
    let wgpa : ℚ :=
      if contribs = [] then 0
      else ((contribs.map (fun t => t.2.1 * t.2.2)).sum) / ((contribs.map (·.2.2)).sum)
    (prereqs = [] → r = (passRate.getD 0.7, "unknown")) ∧
    (prereqs ≠ [] →
      let base : ℚ := 0.2 + wgpa / 4 * 0.75
      let blended : ℚ :=
        match passRate with
        | some rate => base * 0.7 + rate * 0.3
        | none => base
      r.1 = (if missing = [] then blended else blended * 0.8) ∧
      r.2 = (if missing = [] then gpaBand wgpa else escalateBand (gpaBand wgpa)))

/-- Claim C4 as stated: every prerequisite of the target is classified
into exactly one of the two groups "present with a numeric grade"
(contributing to the weighted average) and "missing from the record"
(listed in `missing_prereqs`), and the weighted prerequisite GPA is the
weight-weighted average over the present group (0.0 when empty). -/
def ClaimC4Stated : Prop :=
  ∀ (subjects : List (String × SubjRecord)) (target : String),
    let prereqs := (alookup SUBJECT_PREREQUISITES target).getD []
    let a := analyzePrereqs subjects prereqs
    let contribs := presentContribs subjects prereqs
    (∀ i, i < prereqs.length →
      (prereqs.getD i ("", 0)).1 ∈ a.1.map (·.subject_code) ∧
        (prereqs.getD i ("", 0)).1 ∉ a.2.1 ∨
      (prereqs.getD i ("", 0)).1 ∉ a.1.map (·.subject_code) ∧
        (prereqs.getD i ("", 0)).1 ∈ a.2.1) ∧
    (if contribs = [] then (0 : ℚ)
     else ((contribs.map (fun t => t.2.1 * t.2.2)).sum) / ((contribs.map (·.2.2)).sum)) =
      (if 0 < a.2.2.2 then a.2.2.1 / a.2.2.2 else 0)

/-- Claim C7 as stated: `compute_course_risk` returns the weighted score
itself (no rounding) with the ≥0.70 / ≥0.40 banding, and `what_if`
returns the arithmetic mean of the per-course scores (no rounding). -/
def ClaimC7Stated : Prop :=
  ∀ (v : ProgrammeVariant) (course : Course) (m : StudentMetrics)
    (completed planned : List String),
    let prereqs := (alookup v.prerequisite_graph course.subject_code).getD []
    let fr : ℚ :=
      if prereqs = [] then 1
      else ((prereqs.filter (fun p => decide (p ∈ completed))).length : ℚ) / (prereqs.length : ℚ)
    let s : ℚ :=
      0.30 * fr + 0.25 * (m.cgpa / 4) + 0.15 * ((m.gpa_trend + 1) / 2) +
      0.15 * (m.attendance / 100) + 0.15 * max 0 (1 - m.planned_credits / 24)
    let resolved := v.list_all_courses.filter (fun c => decide (c.subject_code ∈ planned))
    let m' := { m with planned_credits := ((resolved.map (·.credit)).sum : ℚ) }
    let scored := resolved.map (fun c => compute_course_risk v c m' completed)
    let agg : ℚ :=
      if scored ≠ [] then (scored.map (·.numeric_score)).sum / (scored.length : ℚ) else 0
    (compute_course_risk v course m completed).numeric_score = s ∧
    (compute_course_risk v course m completed).predicted_risk = scoreBand s ∧
    (what_if v planned m completed).per_course = scored ∧
    (what_if v planned m completed).aggregated_risk_score = agg ∧
    (what_if v planned m completed).risk_band = scoreBand agg

/-- Fixture: counterexample metrics for C7 (cgpa 3.333, everything else
zero) giving the weighted score 0.7333125, which has more than three
decimals. -/
def c7Metrics : StudentMetrics := { cgpa := 3.333 }

/-- Fixture: a bare variant with an empty prerequisite graph. -/
def emptyVariant : ProgrammeVariant :=
  { programme_code := "BCS", intake_code := "202301", entry_type := "normal" }

/-- Fixture: a course without prerequisite-graph entry. -/
def c7Course : Course := { subject_code := "CSC1024", subject_name := "ProgrammingPrinciples", credit := 4 }

/-- Fixture: a student record holding only an ungraded pass for
SEG1201 (grade "P", no grade points). -/
def passOnlyRecord : List (String × SubjRecord) :=
  [("SEG1201", { subject_name := "DatabaseFundamentals", grade := "P", grade_points := none })]

/-- Fixture: a student record with a single graded prerequisite
PRG1203 at B+ (3.3 grade points), the worked example of the spec. -/
def bPlusRecord : List (String × SubjRecord) :=
  [("PRG1203", { subject_name := "Object-OrientedProgrammingFundamentals", grade := "B+", grade_points := some 3.3 })]

/-- Fixture: cohort statistics giving CSC1024 a 0.6 pass rate, the
fusion scenario's rule-probability source. -/
def fusionStats : List (String × CohortStat) :=
  [("CSC1024",
    { pass_rate := 0.6, avg_score := none, avg_gpa := none,
      total_students := 10, subject_name := "ProgrammingPrinciples" })]

/-- Fixture: a two-node cyclic prerequisite graph A ↔ B. -/
def cyclicGraph : List (String × List (String × ℚ)) :=
  [("A", [("B", 1)]), ("B", [("A", 1)])]

/- ===================== Theorems ===================== -/

/-- `pyRound` never moves a value by more than 1/2. -/
theorem pyRound_bounds (q : ℚ) :
    q - 1/2 ≤ (pyRound q : ℚ) ∧ (pyRound q : ℚ) ≤ q + 1/2 := by
  unfold pyRound
  by_cases htie : q - ⌊q⌋ = 1/2
  · have hfl : ((⌊q⌋ : ℤ) : ℚ) = q - 1/2 := by linarith
    by_cases heven : (⌊q⌋ : ℤ) % 2 = 0 <;>
      simp only [htie, heven, if_true, if_false, if_pos, if_neg, push_cast] <;>
      constructor <;> push_cast <;> linarith
  · have h := abs_sub_round q
    rw [abs_sub_le_iff] at h
    simp only [htie, if_neg, if_false]
    constructor <;> push_cast <;> linarith [h.1, h.2]

/-- Any integer-valued map within the ±1/2 band is monotone, so
`pyRound` is. -/
theorem pyRound_mono {x y : ℚ} (h : x ≤ y) : pyRound x ≤ pyRound y := by
  by_contra hlt
  push_neg at hlt
  have hcast : (pyRound y : ℚ) + 1 ≤ (pyRound x : ℚ) := by
    exact_mod_cast Int.add_one_le_iff.mpr hlt
  have h1 := (pyRound_bounds x).2
  have h2 := (pyRound_bounds y).1
  have hyx : y ≤ x := by linarith
  have hxy : x = y := le_antisymm h hyx
  subst hxy
  exact absurd rfl (ne_of_lt hlt)

/-- `pyRoundTo` is monotone at every digit count. -/
theorem pyRoundTo_mono (n : ℕ) {x y : ℚ} (h : x ≤ y) :
    pyRoundTo n x ≤ pyRoundTo n y := by
  unfold pyRoundTo
  have hp : (0 : ℚ) < 10 ^ n := by positivity
  have hr := pyRound_mono (mul_le_mul_of_nonneg_right h (le_of_lt hp))
  have hrq : (pyRound (x * 10 ^ n) : ℚ) ≤ (pyRound (y * 10 ^ n) : ℚ) := by exact_mod_cast hr
  exact (div_le_div_right hp).mpr hrq

/-- Growing the completed set can only grow the completed-credit sum. -/
theorem sum_credits_mono (courses : List Course) {A B : List String}
    (hAB : ∀ x ∈ A, x ∈ B) :
    ((courses.filter (fun c => decide (c.subject_code ∈ A))).map (·.credit)).sum ≤
      ((courses.filter (fun c => decide (c.subject_code ∈ B))).map (·.credit)).sum := by
  induction courses with
  | nil => simp
  | cons c cs ih =>
    simp only [List.filter_cons]
    by_cases hA : c.subject_code ∈ A
    · have hB : c.subject_code ∈ B := hAB _ hA
      simpa [hA, hB] using Nat.add_le_add_left ih c.credit
    · by_cases hB : c.subject_code ∈ B
      · simpa [hA, hB] using le_trans ih (Nat.le_add_left _ _)
      · simpa [hA, hB] using ih

/-- C6 — percent_complete is monotone non-decreasing in the completed
set: for any variant and completed-code sets A ⊆ B, `compute_progress`
reports a percent under B at least that under A, the two-decimal
rounding included. -/
theorem c6_percent_complete_monotone (v : ProgrammeVariant)
    (A B : List String) (hAB : ∀ x ∈ A, x ∈ B) :
    (v.compute_progress A).percent_complete ≤ (v.compute_progress B).percent_complete := by
  simp only [ProgrammeVariant.compute_progress]
  by_cases htot :
      ((v.list_all_courses.filter (fun c => !c.is_placeholder)).map (·.credit)).sum = 0
  · simp [htot]
  · simp only [htot, ne_eq, not_false_eq_true, if_true, if_pos]
    apply pyRoundTo_mono
    have hc := sum_credits_mono (v.list_all_courses.filter (fun c => !c.is_placeholder)) hAB
    have htq : (0 : ℚ) <
        (((v.list_all_courses.filter (fun c => !c.is_placeholder)).map (·.credit)).sum : ℕ) := by
      exact_mod_cast Nat.pos_of_ne_zero htot
    gcongr

/-- Witness for C6 at the catalog's 202301-normal variant, from the
empty completed set to a singleton. -/
theorem c6_witness :
    (∀ x ∈ ([] : List String), x ∈ ["CSC1024"]) ∧
      ((build_variant "202301-normal").compute_progress []).percent_complete ≤
        ((build_variant "202301-normal").compute_progress ["CSC1024"]).percent_complete :=
  ⟨by simp, c6_percent_complete_monotone (build_variant "202301-normal") [] ["CSC1024"] (by simp)⟩

set_option maxHeartbeats 4000000 in
set_option maxRecDepth 10000 in
/-- C1 — for every variant built by the catalog, the course listing is
exactly the first-seen-order deduplication of every code referenced in
the variant (semester order, then elective-group insertion order), the
listed codes are pairwise distinct, every referenced code is listed, and
`compute_progress` totals credits over that deduplicated non-placeholder
listing, so each course's credit is counted once. -/
theorem c1_course_listing_dedup : ∀ key ∈ variantKeys,
    (((build_variant key).list_all_courses.map (·.subject_code)) =
        dedupFirst (referencedCourseCodes (build_variant key)) ∧
      ((build_variant key).list_all_courses.map (·.subject_code)).Nodup ∧
      (∀ c ∈ referencedCourseCodes (build_variant key),
        c ∈ (build_variant key).list_all_courses.map (·.subject_code))) ∧
    ∀ completed : List String,
      ((build_variant key).compute_progress completed).total_credits =
        ((((build_variant key).list_all_courses.filter
            (fun c => !c.is_placeholder)).map (·.credit)).sum) := by
  have hdec : ∀ key ∈ variantKeys,
      ((build_variant key).list_all_courses.map (·.subject_code)) =
        dedupFirst (referencedCourseCodes (build_variant key)) ∧
      ((build_variant key).list_all_courses.map (·.subject_code)).Nodup ∧
      (∀ c ∈ referencedCourseCodes (build_variant key),
        c ∈ (build_variant key).list_all_courses.map (·.subject_code)) := by decide
  exact fun key hk => ⟨hdec key hk, fun completed => rfl⟩

/-- Witness for C1 at the 202301-normal catalog key. -/
theorem c1_witness :
    ("202301-normal" ∈ variantKeys) ∧
      ((((build_variant "202301-normal").list_all_courses.map (·.subject_code)) =
          dedupFirst (referencedCourseCodes (build_variant "202301-normal")) ∧
        ((build_variant "202301-normal").list_all_courses.map (·.subject_code)).Nodup ∧
        (∀ c ∈ referencedCourseCodes (build_variant "202301-normal"),
          c ∈ (build_variant "202301-normal").list_all_courses.map (·.subject_code))) ∧
      ∀ completed : List String,
        ((build_variant "202301-normal").compute_progress completed).total_credits =
          ((((build_variant "202301-normal").list_all_courses.filter
              (fun c => !c.is_placeholder)).map (·.credit)).sum)) :=
  ⟨by decide, c1_course_listing_dedup "202301-normal" (by decide)⟩

/-- Evaluation helper: `pyRound` on the lower half of an integer gap. -/
theorem pyRound_eq_low {q : ℚ} {n : ℤ} (h1 : (n : ℚ) ≤ q) (h2 : q < (n : ℚ) + 1/2) :
    pyRound q = n := by
  have hfl : ⌊q⌋ = n := Int.floor_eq_iff.mpr ⟨h1, by push_cast; linarith⟩
  unfold pyRound
  rw [hfl, if_neg (by intro he; push_cast at he; linarith), round_eq]
  exact Int.floor_eq_iff.mpr ⟨by push_cast; linarith, by push_cast; linarith⟩

/-- Evaluation helper: `pyRound` on the upper half of an integer gap. -/
theorem pyRound_eq_high {q : ℚ} {n : ℤ} (h1 : (n : ℚ) + 1/2 < q) (h2 : q < (n : ℚ) + 1) :
    pyRound q = n + 1 := by
  have hfl : ⌊q⌋ = n := Int.floor_eq_iff.mpr ⟨by push_cast; linarith, by push_cast; linarith⟩
  unfold pyRound
  rw [hfl, if_neg (by intro he; push_cast at he; linarith), round_eq]
  exact Int.floor_eq_iff.mpr ⟨by push_cast; linarith, by push_cast; linarith⟩

/-- `pyRoundTo` fixes 0. -/
theorem pyRoundTo_zero (n : ℕ) : pyRoundTo n 0 = 0 := by
  unfold pyRoundTo
  rw [zero_mul, show pyRound 0 = 0 from pyRound_eq_low (by norm_num) (by norm_num)]
  norm_num

/-- C10 — `what_if` on a plan none of whose codes resolves against the
variant listing: zero credits, empty per-course list, aggregated score
0.0 (the empty mean is guarded, not an error), band "high", and the
unknown planned codes are silently echoed rather than reported. -/
theorem c10_what_if_unknown_codes (v : ProgrammeVariant) (planned : List String)
    (m : StudentMetrics) (completed : List String)
    (h : ∀ c ∈ v.list_all_courses, c.subject_code ∉ planned) :
    what_if v planned m completed =
      { selected_subject_codes := planned
        total_credits := 0
        aggregated_risk_score := 0
        risk_band := "high"
        per_course := [] } := by
  have hf : v.list_all_courses.filter (fun c => decide (c.subject_code ∈ planned)) = [] :=
    List.filter_eq_nil_iff.mpr (fun c hc => by simpa using h c hc)
  simp only [what_if, hf, List.map_nil, List.sum_nil, List.length_nil, ne_eq,
    not_true_eq_false, if_false]
  norm_num [pyRoundTo_zero, scoreBand]

/-- Witness for C10: the 202301-normal variant with a plan naming only
an unknown code. -/
theorem c10_witness :
    (∀ c ∈ (build_variant "202301-normal").list_all_courses,
        c.subject_code ∉ ["XYZ9999"]) ∧
      what_if (build_variant "202301-normal") ["XYZ9999"] {} [] =
        { selected_subject_codes := ["XYZ9999"]
          total_credits := 0
          aggregated_risk_score := 0
          risk_band := "high"
          per_course := [] } :=
  ⟨by decide, c10_what_if_unknown_codes (build_variant "202301-normal") ["XYZ9999"] {} []
    (by decide)⟩

/-- C8 — an unknown variant key is a hard 404 for `get_variant_courses`,
while an intake code with no registered elective store silently builds
with the designated default (2023) store, both in
`build_elective_groups` and through `build_variant`. -/
theorem c8_lookup_asymmetry :
    (∀ key, alookup load_bcs_variants key = none →
      get_variant_courses key = Except.error (404, "Variant not found")) ∧
    (∀ intake_code, alookup INTAKE_TO_STORE intake_code = none →
      build_elective_groups intake_code =
        ELECTIVES_Y2_2023.map (storeGroup 2) ++ ELECTIVES_Y3_2023.map (storeGroup 3)) ∧
    (∀ key, alookup INTAKE_TO_STORE ((splitDash key).getD 0 "") = none →
      (build_variant key).elective_groups =
        ELECTIVES_Y2_2023.map (storeGroup 2) ++ ELECTIVES_Y3_2023.map (storeGroup 3)) := by
  refine ⟨fun key h => ?_, fun intake_code h => ?_, fun key h => ?_⟩
  · simp [get_variant_courses, h]
  · simp [build_elective_groups, h]
  · have h' : alookup INTAKE_TO_STORE ((splitDash key)[0]?.getD "") = none := by
      simpa using h
    simp [build_variant, build_elective_groups, h']

/-- Witness for C8 at an unknown key and an unregistered intake. -/
theorem c8_witness :
    (alookup load_bcs_variants "202401-normal" = none ∧
      alookup INTAKE_TO_STORE "199901" = none) ∧
      get_variant_courses "202401-normal" = Except.error (404, "Variant not found") ∧
      build_elective_groups "199901" =
        ELECTIVES_Y2_2023.map (storeGroup 2) ++ ELECTIVES_Y3_2023.map (storeGroup 3) :=
  ⟨⟨by rfl, by rfl⟩,
    c8_lookup_asymmetry.1 "202401-normal" (by rfl),
    c8_lookup_asymmetry.2.1 "199901" (by rfl)⟩

/-- Counterexample to C7 as stated: with cgpa 3.333 (and no
prerequisites) the weighted score is 0.7333125, but the returned
numeric_score is its three-decimal rounding 0.733, so
`compute_course_risk` does not return the raw weighted score. -/
theorem c7_counterexample : ¬ ClaimC7Stated := by
  intro hcl
  have h1 := (hcl emptyVariant c7Course c7Metrics [] []).1
  have hs : (compute_course_risk emptyVariant c7Course c7Metrics []).numeric_score =
      pyRoundTo 3 (7333125/10000000) := by
    norm_num [compute_course_risk, emptyVariant, c7Course, c7Metrics, alookup, max_def]
  have hval : pyRoundTo 3 ((7333125 : ℚ)/10000000) = 733/1000 := by
    unfold pyRoundTo
    rw [show (7333125/10000000 : ℚ) * 10 ^ 3 = 7333125/10000 by norm_num]
    rw [show pyRound ((7333125 : ℚ)/10000) = 733 from pyRound_eq_low (by norm_num) (by norm_num)]
    norm_num
  rw [hs, hval] at h1
  norm_num [emptyVariant, c7Course, c7Metrics, alookup, max_def] at h1

/-- C7 amended — `compute_course_risk` computes the weighted score
0.30×ratio + 0.25×(cgpa/4) + 0.15×((trend+1)/2) + 0.15×(attendance/100)
+ 0.15×max(0, 1 − planned/24) with the prerequisite ratio 1.0 when the
course has no graph entry, bands it at ≥0.70 low / ≥0.40 medium / else
high, and returns it rounded to three decimals; `what_if` resolves the
planned codes against the listing, injects the total planned credits as
the workload metric, scores each course independently, and aggregates
the rounded per-course scores by arithmetic mean (banded the same way,
returned rounded to three decimals). -/
theorem c7_amended_risk_formula (v : ProgrammeVariant) (course : Course)
    (m : StudentMetrics) (completed planned : List String) :
    (let prereqs := (alookup v.prerequisite_graph course.subject_code).getD []
     let fr : ℚ :=
       if prereqs = [] then 1
       else ((prereqs.filter (fun p => decide (p ∈ completed))).length : ℚ) / (prereqs.length : ℚ)
     let s : ℚ :=
       0.30 * fr + 0.25 * (m.cgpa / 4) + 0.15 * ((m.gpa_trend + 1) / 2) +
       0.15 * (m.attendance / 100) + 0.15 * max 0 (1 - m.planned_credits / 24)
     compute_course_risk v course m completed =
       { subject_code := course.subject_code
         subject_name := course.subject_name
         predicted_risk := scoreBand s
         numeric_score := pyRoundTo 3 s
         factors :=
           [("prereq_completed_ratio", fr),
            ("cgpa_scaled", m.cgpa / 4),
            ("trend_scaled", (m.gpa_trend + 1) / 2),
            ("attendance_scaled", m.attendance / 100),
            ("workload_penalty", max 0 (1 - m.planned_credits / 24))] }) ∧
    (let resolved := v.list_all_courses.filter (fun c => decide (c.subject_code ∈ planned))
     let m' := { m with planned_credits := (((resolved.map (·.credit)).sum : ℕ) : ℚ) }
     let scored := resolved.map (fun c => compute_course_risk v c m' completed)
     let agg : ℚ :=
       if scored ≠ [] then (scored.map (·.numeric_score)).sum / (scored.length : ℚ) else 0
     what_if v planned m completed =
       { selected_subject_codes := planned
         total_credits := (resolved.map (·.credit)).sum
         aggregated_risk_score := pyRoundTo 3 agg
         risk_band := scoreBand agg
         per_course := scored }) :=
  ⟨rfl, rfl⟩

theorem analyzePrereqs_fold (subjects : List (String × SubjRecord)) :
    ∀ (prereqs : List (String × ℚ)) (accP : List PrerequisitePerformance)
      (accM : List String) (accS accW : ℚ),
      prereqs.foldl
        (fun acc entry =>
          match alookup subjects entry.1 with
          | some subj =>
            match subj.grade_points with
            | some gp =>
              (acc.1 ++ [{ subject_code := entry.1, subject_name := subj.subject_name,
                           grade := subj.grade, grade_points := gp, weight := entry.2,
                           impact_score := gp * entry.2 }],
               acc.2.1, acc.2.2.1 + gp * entry.2, acc.2.2.2 + entry.2)
            | none => acc
          | none => (acc.1, acc.2.1 ++ [entry.1], acc.2.2))
        (accP, accM, accS, accW) =
      (accP ++ (analyzePrereqs subjects prereqs).1,
       accM ++ (analyzePrereqs subjects prereqs).2.1,
       accS + (analyzePrereqs subjects prereqs).2.2.1,
       accW + (analyzePrereqs subjects prereqs).2.2.2) := by
  intro prereqs
  induction prereqs with
  | nil => intro accP accM accS accW; simp [analyzePrereqs]
  | cons pw rest ih =>
    intro accP accM accS accW
    rcases hlook : alookup subjects pw.1 with _ | subj
    · simp only [analyzePrereqs, List.foldl_cons, hlook]
      rw [ih, ih]
      simp
    · rcases hgp : subj.grade_points with _ | gp
      · simp only [analyzePrereqs, List.foldl_cons, hlook, hgp]
        rw [ih, ih]
        simp
      · simp only [analyzePrereqs, List.foldl_cons, hlook, hgp]
        rw [ih, ih]
        refine Prod.ext ?_ (Prod.ext ?_ (Prod.ext ?_ ?_)) <;> simp <;> ring

theorem analyzePrereqs_spec (subjects : List (String × SubjRecord))
    (prereqs : List (String × ℚ)) :
    (analyzePrereqs subjects prereqs).1.map (·.subject_code) =
      (presentContribs subjects prereqs).map (·.1) ∧
    (analyzePrereqs subjects prereqs).2.1 = absentPrereqs subjects prereqs ∧
    (analyzePrereqs subjects prereqs).2.2.1 =
      ((presentContribs subjects prereqs).map (fun t => t.2.1 * t.2.2)).sum ∧
    (analyzePrereqs subjects prereqs).2.2.2 =
      ((presentContribs subjects prereqs).map (·.2.2)).sum := by
  induction prereqs with
  | nil => simp [analyzePrereqs, presentContribs, absentPrereqs]
  | cons pw rest ih =>
    obtain ⟨ih1, ih2, ih3, ih4⟩ := ih
    rcases hlook : alookup subjects pw.1 with _ | subj
    · simp only [analyzePrereqs, List.foldl_cons, hlook]
      rw [analyzePrereqs_fold]
      simp [presentContribs, absentPrereqs, List.filterMap_cons, List.filter_cons, hlook,
        ih1, ih2, ih3, ih4]
    · rcases hgp : subj.grade_points with _ | gp
      · simp only [analyzePrereqs, List.foldl_cons, hlook, hgp]
        rw [analyzePrereqs_fold]
        simp [presentContribs, absentPrereqs, List.filterMap_cons, List.filter_cons, hlook, hgp,
          ih1, ih2, ih3, ih4]
      · simp only [analyzePrereqs, List.foldl_cons, hlook, hgp]
        rw [analyzePrereqs_fold]
        simp [presentContribs, absentPrereqs, List.filterMap_cons, List.filter_cons, hlook, hgp,
          ih1, ih2, ih3, ih4]

/-- C3 amended — the rule-based prediction: the "unknown" branch is
taken exactly when no prerequisite contributed weight (none present with
a numeric grade; `total_weight = 0`), not when the target has zero
defined prerequisites; in that branch the probability is the cohort pass
rate (0.7 default) times the 0.8 missing-prerequisite penalty.
Otherwise the probability is 0.2 + (weighted_prereq_gpa/4)×0.75, blended
as base×0.7 + pass_rate×0.3 when the cohort rate is known, times the
penalty, and the band comes from the weighted-GPA thresholds, escalated
one step when a prerequisite is missing. -/
theorem c3_amended_rule_formula (stats : List (String × CohortStat))
    (subjects : List (String × SubjRecord)) (target : String) :
    (let prereqs := (alookup SUBJECT_PREREQUISITES target).getD []
     let contribs := presentContribs subjects prereqs
     let missing := absentPrereqs subjects prereqs
     let tw : ℚ := (contribs.map (·.2.2)).sum
     let wgpa : ℚ :=
       if 0 < tw then ((contribs.map (fun t => t.2.1 * t.2.2)).sum) / tw else 0
     let passRate := (alookup stats target).map (·.pass_rate)
     rulePrediction stats subjects target =
       (if tw = 0 then
          ((passRate.getD 0.7) * (if missing = [] then 1 else 0.8), "unknown")
        else
          ((match passRate with
            | some rate => (0.2 + wgpa / 4 * 0.75) * 0.7 + rate * 0.3
            | none => 0.2 + wgpa / 4 * 0.75) * (if missing = [] then 1 else 0.8),
           if missing = [] then gpaBand wgpa else escalateBand (gpaBand wgpa)))) := by
  obtain ⟨h1, h2, h3, h4⟩ :=
    analyzePrereqs_spec subjects ((alookup SUBJECT_PREREQUISITES target).getD [])
  simp only [rulePrediction, h2, h3, h4]
  by_cases hm : absentPrereqs subjects ((alookup SUBJECT_PREREQUISITES target).getD []) = []
  · by_cases hw :
        ((presentContribs subjects ((alookup SUBJECT_PREREQUISITES target).getD [])).map
          (·.2.2)).sum = (0 : ℚ)
    · rcases hpr : alookup stats target with _ | entry <;>
        simp [hm, hw, escalateBand]
    · rcases hpr : alookup stats target with _ | entry <;>
        simp [hm, hw]
  · by_cases hw :
        ((presentContribs subjects ((alookup SUBJECT_PREREQUISITES target).getD [])).map
          (·.2.2)).sum = (0 : ℚ)
    · rcases hpr : alookup stats target with _ | entry <;>
        simp [hm, hw, escalateBand]
    · rcases hpr : alookup stats target with _ | entry <;>
        simp [hm, hw]

/-- Counterexample to C3 as stated: target PRJ3223 has one defined
prerequisite (PRJ3213), yet with an empty student record the code takes
the "unknown" branch (probability 0.7×0.8, risk "unknown"), not the
claimed formula branch (which would give the escalated weighted-GPA band
"very_high"). -/
theorem c3_counterexample : ¬ ClaimC3Stated := by
  intro h
  have h2 := ((h [] [] "PRJ3223").2 (by decide)).2
  have hpre : (alookup SUBJECT_PREREQUISITES "PRJ3223").getD [] = [("PRJ3213", 0.9)] := rfl
  rw [hpre] at h2
  have hrul : (rulePrediction [] [] "PRJ3223").2 = "unknown" := by
    have := c3_amended_rule_formula [] [] "PRJ3223"
    simp only [hpre] at this
    rw [this]
    norm_num [presentContribs, absentPrereqs, alookup]
  rw [hrul] at h2
  norm_num [presentContribs, absentPrereqs, alookup, gpaBand, escalateBand,
    RISK_THRESHOLD_LOW, RISK_THRESHOLD_MEDIUM, RISK_THRESHOLD_HIGH] at h2
  exact absurd h2 (by decide)

/-- C2 — hybrid fusion: with an adapter result available the returned
probability is classifier×0.7 + rule×0.3 clamped to [0,1], the risk
level is the classifier's own band of its probability, and the method
tag is "hybrid"; with no adapter result the tag is "rule-based".  The
fusion scenario rule 0.6 / classifier 0.9 gives 0.81, "low", "hybrid",
with classifier confidence 0.8. -/
theorem c2_hybrid_fusion :
    (∀ (stats : List (String × CohortStat)) (subjects : List (String × SubjRecord))
        (target : String) (p : ℚ) (tf : List (String × ℚ)),
      (predictWithSubjects stats subjects target
          (some (mkMLPrediction p tf))).predicted_success_probability =
        clampUnit (p * 0.7 + (rulePrediction stats subjects target).1 * 0.3) ∧
      (predictWithSubjects stats subjects target (some (mkMLPrediction p tf))).risk_level =
        mlRiskBand p ∧
      (predictWithSubjects stats subjects target
          (some (mkMLPrediction p tf))).prediction_method = "hybrid" ∧
      (predictWithSubjects stats subjects target none).prediction_method = "rule-based") ∧
    (predictWithSubjects fusionStats [] "CSC1024"
        (some (mkMLPrediction 0.9 []))).predicted_success_probability = 0.81 ∧
    (predictWithSubjects fusionStats [] "CSC1024"
        (some (mkMLPrediction 0.9 []))).risk_level = "low" ∧
    (predictWithSubjects fusionStats [] "CSC1024"
        (some (mkMLPrediction 0.9 []))).prediction_method = "hybrid" ∧
    (rulePrediction fusionStats [] "CSC1024").1 = 0.6 ∧
    (mkMLPrediction 0.9 []).confidence = 0.8 := by
  have hpre : (alookup SUBJECT_PREREQUISITES "CSC1024").getD [] = ([] : List (String × ℚ)) := rfl
  have hrule : (rulePrediction fusionStats [] "CSC1024").1 = 0.6 := by
    rw [c3_amended_rule_formula fusionStats [] "CSC1024"]
    simp only [hpre]
    norm_num [presentContribs, absentPrereqs, alookup, fusionStats]
  refine ⟨fun stats subjects target p tf => ⟨rfl, rfl, rfl, rfl⟩, ?_, ?_, rfl, hrule, ?_⟩
  · show clampUnit (0.9 * 0.7 + (rulePrediction fusionStats [] "CSC1024").1 * 0.3) = 0.81
    rw [hrule]
    norm_num [clampUnit, min_def, max_def]
  · show mlRiskBand 0.9 = "low"
    norm_num [mlRiskBand]
  · show |(0.9 : ℚ) - 0.5| * 2 = 0.8
    rw [show |(0.9 : ℚ) - 0.5| = 0.4 by rw [abs_of_nonneg] <;> norm_num]
    norm_num

/-- Counterexample to C4 as stated: with SEG1201 present in the record
as an ungraded "P" row, the single prerequisite of SEG2102 lands in
neither the contributing group nor missing_prereqs — the two claimed
groups do not cover it. -/
theorem c4_counterexample : ¬ ClaimC4Stated := by
  intro h
  have h1 := (h passOnlyRecord "SEG2102").1 0 (by decide)
  exact absurd h1 (by decide)

/-- Any code in the contributing group is present with a numeric grade. -/
theorem presentContribs_fst_sound (subjects : List (String × SubjRecord))
    (prereqs : List (String × ℚ)) (c : String)
    (hc : c ∈ (presentContribs subjects prereqs).map (·.1)) :
    ∃ r gp, alookup subjects c = some r ∧ r.grade_points = some gp := by
  rw [List.mem_map] at hc
  obtain ⟨t, ht, hfst⟩ := hc
  rw [presentContribs, List.mem_filterMap] at ht
  obtain ⟨pw, hpw, hf⟩ := ht
  rcases hl : alookup subjects pw.1 with _ | r
  · simp only [hl] at hf
    exact absurd hf (by simp)
  · simp only [hl] at hf
    rcases hgp : r.grade_points with _ | gp
    · simp only [hgp] at hf
      exact absurd hf (by simp)
    · simp only [hgp, Option.some_inj] at hf
      subst hf
      simp only at hfst
      subst hfst
      exact ⟨r, gp, hl, hgp⟩

/-- A present-graded prerequisite's code is in the contributing group. -/
theorem presentContribs_fst_mem (subjects : List (String × SubjRecord))
    (prereqs : List (String × ℚ)) (pw : String × ℚ) (hpw : pw ∈ prereqs)
    (r : SubjRecord) (gp : ℚ) (hl : alookup subjects pw.1 = some r)
    (hgp : r.grade_points = some gp) :
    pw.1 ∈ (presentContribs subjects prereqs).map (·.1) := by
  refine List.mem_map.mpr ⟨(pw.1, gp, pw.2), ?_, rfl⟩
  rw [presentContribs]
  refine List.mem_filterMap.mpr ⟨pw, hpw, ?_⟩
  simp only [hl, hgp]

/-- Any code in the missing group is absent from the record. -/
theorem absentPrereqs_sound (subjects : List (String × SubjRecord))
    (prereqs : List (String × ℚ)) (c : String)
    (hc : c ∈ absentPrereqs subjects prereqs) : alookup subjects c = none := by
  rw [absentPrereqs, List.mem_map] at hc
  obtain ⟨pw, hpw, hfst⟩ := hc
  rw [List.mem_filter] at hpw
  subst hfst
  simpa using hpw.2

/-- An absent prerequisite's code is in the missing group. -/
theorem absentPrereqs_mem (subjects : List (String × SubjRecord))
    (prereqs : List (String × ℚ)) (pw : String × ℚ) (hpw : pw ∈ prereqs)
    (hl : alookup subjects pw.1 = none) :
    pw.1 ∈ absentPrereqs subjects prereqs := by
  rw [absentPrereqs, List.mem_map]
  exact ⟨pw, List.mem_filter.mpr ⟨hpw, by simp [hl]⟩, rfl⟩

/-- C4 amended — each prerequisite of the target is classified into
exactly one of three groups: present with a numeric grade (contributing
to the weighted average), absent from the record (listed in
missing_prereqs), or present without numeric grade points (in neither
group); the weighted prerequisite GPA is Σ(grade_point×weight)/Σ(weight)
over the contributing group whenever that group carries positive total
weight and 0.0 otherwise, and the spec's worked example evaluates to
3.3. -/
theorem c4_prereq_classification (stats : List (String × CohortStat))
    (subjects : List (String × SubjRecord)) (target : String) (i : ℕ)
    (hi : i < ((alookup SUBJECT_PREREQUISITES target).getD []).length) :
    (let prereqs := (alookup SUBJECT_PREREQUISITES target).getD []
     let a := analyzePrereqs subjects prereqs
     let contribs := presentContribs subjects prereqs
     let pwc := (prereqs.getD i ("", 0)).1
     a.1.map (·.subject_code) = contribs.map (·.1) ∧
     a.2.1 = absentPrereqs subjects prereqs ∧
     ((prereqPresentGraded subjects pwc).toNat + (prereqAbsent subjects pwc).toNat +
       (prereqPresentUngraded subjects pwc).toNat = 1) ∧
     (prereqPresentGraded subjects pwc = true →
       pwc ∈ a.1.map (·.subject_code) ∧ pwc ∉ a.2.1) ∧
     (prereqAbsent subjects pwc = true →
       pwc ∈ a.2.1 ∧ pwc ∉ a.1.map (·.subject_code)) ∧
     (prereqPresentUngraded subjects pwc = true →
       pwc ∉ a.1.map (·.subject_code) ∧ pwc ∉ a.2.1) ∧
     (predictWithSubjects stats subjects target none).weighted_prereq_gpa =
       (if 0 < (contribs.map (·.2.2)).sum then
          ((contribs.map (fun t => t.2.1 * t.2.2)).sum) / (contribs.map (·.2.2)).sum
        else 0)) ∧
    (predictWithSubjects [] bPlusRecord "PRG2104" none).weighted_prereq_gpa = 3.3 := by
  obtain ⟨h1, h2, h3, h4⟩ :=
    analyzePrereqs_spec subjects ((alookup SUBJECT_PREREQUISITES target).getD [])
  have hmem : ((alookup SUBJECT_PREREQUISITES target).getD []).getD i ("", 0) ∈
      (alookup SUBJECT_PREREQUISITES target).getD [] := by
    rw [List.getD_eq_getElem?_getD, List.getElem?_eq_getElem hi]
    exact List.getElem_mem _
  refine ⟨⟨h1, h2, ?_, ?_, ?_, ?_, ?_⟩, ?_⟩
  · -- exactly one of the three predicates holds
    rcases hlook : alookup subjects ((((alookup SUBJECT_PREREQUISITES target).getD []).getD i ("", 0)).1) with _ | r
    · simp only [prereqPresentGraded, prereqAbsent, prereqPresentUngraded, hlook,
        Option.none_bind]
      rfl
    · rcases hgp : r.grade_points with _ | gp <;>
        · simp only [prereqPresentGraded, prereqAbsent, prereqPresentUngraded, hlook,
            Option.some_bind, hgp]
          rfl
  · -- present with a numeric grade: contributes, not missing
    intro hg
    simp only [prereqPresentGraded, Option.isSome_iff_exists, Option.bind_eq_some] at hg
    obtain ⟨gp, r, hlook, hgp⟩ := hg
    refine ⟨?_, ?_⟩
    · rw [h1]
      exact presentContribs_fst_mem subjects _ _ hmem r gp hlook hgp
    · rw [h2]
      intro hin
      rw [absentPrereqs_sound subjects _ _ hin] at hlook
      exact absurd hlook (by simp)
  · -- absent from the record: listed missing, not contributing
    intro ha
    simp only [prereqAbsent, Option.isNone_iff_eq_none] at ha
    refine ⟨?_, ?_⟩
    · rw [h2]
      exact absentPrereqs_mem subjects _ _ hmem ha
    · rw [h1]
      intro hin
      obtain ⟨r, gp, hl, _⟩ := presentContribs_fst_sound subjects _ _ hin
      rw [ha] at hl
      exact absurd hl (by simp)
  · -- present without numeric grade points: in neither group
    intro hu
    simp only [prereqPresentUngraded] at hu
    rcases hlook : alookup subjects ((((alookup SUBJECT_PREREQUISITES target).getD []).getD i ("", 0)).1) with _ | r
    · rw [hlook] at hu; simp at hu
    · rw [hlook] at hu
      refine ⟨?_, ?_⟩
      · rw [h1]
        intro hin
        obtain ⟨r', gp', hl', hgp'⟩ := presentContribs_fst_sound subjects _ _ hin
        rw [hlook] at hl'
        simp only [Option.some_inj] at hl'
        subst hl'
        rw [Option.isNone_iff_eq_none.mp hu] at hgp'
        exact absurd hgp' (by simp)
      · rw [h2]
        intro hin
        rw [absentPrereqs_sound subjects _ _ hin] at hlook
        exact absurd hlook (by simp)
  · -- the weighted prerequisite GPA formula
    simp only [predictWithSubjects, h3, h4]
  · -- the spec worked example: B+ (3.3) on PRG1203, CSC1024 missing
    have hpre : (alookup SUBJECT_PREREQUISITES "PRG2104").getD [] =
        [("PRG1203", 0.9), ("CSC1024", 0.4)] := rfl
    have hana : analyzePrereqs bPlusRecord [("PRG1203", 0.9), ("CSC1024", 0.4)] =
        ([{ subject_code := "PRG1203",
            subject_name := "Object-OrientedProgrammingFundamentals",
            grade := "B+", grade_points := 3.3, weight := 0.9,
            impact_score := 3.3 * 0.9 }],
         ["CSC1024"], 0 + 3.3 * 0.9, 0 + 0.9) := rfl
    simp only [predictWithSubjects, hpre, hana]
    norm_num

/-- Witness for C4 at the worked-example inputs (PRG2104 with a B+ in
PRG1203), index 0 of its two prerequisites. -/
theorem c4_witness :
    (0 < ((alookup SUBJECT_PREREQUISITES "PRG2104").getD []).length) ∧
      ((let prereqs := (alookup SUBJECT_PREREQUISITES "PRG2104").getD []
        let a := analyzePrereqs bPlusRecord prereqs
        let contribs := presentContribs bPlusRecord prereqs
        let pwc := (prereqs.getD 0 ("", 0)).1
        a.1.map (·.subject_code) = contribs.map (·.1) ∧
        a.2.1 = absentPrereqs bPlusRecord prereqs ∧
        ((prereqPresentGraded bPlusRecord pwc).toNat +
          (prereqAbsent bPlusRecord pwc).toNat +
          (prereqPresentUngraded bPlusRecord pwc).toNat = 1) ∧
        (prereqPresentGraded bPlusRecord pwc = true →
          pwc ∈ a.1.map (·.subject_code) ∧ pwc ∉ a.2.1) ∧
        (prereqAbsent bPlusRecord pwc = true →
          pwc ∈ a.2.1 ∧ pwc ∉ a.1.map (·.subject_code)) ∧
        (prereqPresentUngraded bPlusRecord pwc = true →
          pwc ∉ a.1.map (·.subject_code) ∧ pwc ∉ a.2.1) ∧
        (predictWithSubjects [] bPlusRecord "PRG2104" none).weighted_prereq_gpa =
          (if 0 < (contribs.map (·.2.2)).sum then
            ((contribs.map (fun t => t.2.1 * t.2.2)).sum) / (contribs.map (·.2.2)).sum
          else 0)) ∧
      (predictWithSubjects [] bPlusRecord "PRG2104" none).weighted_prereq_gpa = 3.3) :=
  ⟨by decide, c4_prereq_classification [] bPlusRecord "PRG2104" 0 (by decide)⟩

theorem gatherValid_bounds {F : Type} :
    ∀ (l : List (Option F)) (k : ℕ) (p : ℕ × F), p ∈ gatherValid k l →
      k ≤ p.1 ∧ p.1 < k + l.length := by
  intro l
  induction l with
  | nil => intro k p h; simp [gatherValid] at h
  | cons o rest ih =>
    intro k p h
    cases o with
    | none =>
      have := ih (k + 1) p (by simpa [gatherValid] using h)
      constructor <;> [omega; (simp only [List.length_cons]; omega)]
    | some X =>
      rw [gatherValid, List.mem_cons] at h
      rcases h with heq | hmem
      · subst heq; simp
      · have := ih (k + 1) p hmem
        constructor <;> [omega; (simp only [List.length_cons]; omega)]

theorem gatherValid_pairwise {F : Type} :
    ∀ (l : List (Option F)) (k : ℕ),
      (gatherValid k l).Pairwise (fun a b => a.1 ≠ b.1) := by
  intro l
  induction l with
  | nil => intro k; simp [gatherValid]
  | cons o rest ih =>
    intro k
    cases o with
    | none => simpa [gatherValid] using ih (k + 1)
    | some X =>
      rw [gatherValid]
      refine List.Pairwise.cons ?_ (ih (k + 1))
      intro q hq
      have := (gatherValid_bounds rest (k + 1) q hq).1
      simp only
      omega

theorem gatherValid_find {F : Type} :
    ∀ (l : List (Option F)) (k j : ℕ),
      (gatherValid k l).find? (fun p => decide (p.1 = k + j)) =
        (l[j]?.getD none).map (fun X => (k + j, X)) := by
  intro l
  induction l with
  | nil => intro k j; simp [gatherValid]
  | cons o rest ih =>
    intro k j
    cases o with
    | none =>
      cases j with
      | zero =>
        rw [gatherValid]
        rw [List.find?_eq_none.mpr]
        · simp
        · intro p hp
          have := (gatherValid_bounds rest (k + 1) p hp).1
          simp only [decide_eq_true_eq]
          omega
      | succ j' =>
        rw [gatherValid]
        have := ih (k + 1) j'
        rw [show k + (j' + 1) = (k + 1) + j' by omega]
        rw [this]
        simp
    | some X =>
      cases j with
      | zero =>
        rw [gatherValid, List.find?_cons_of_pos _ (by simp)]
        simp
      | succ j' =>
        rw [gatherValid, List.find?_cons_of_neg _ (by simp only [decide_eq_true_eq]; omega)]
        have := ih (k + 1) j'
        rw [show k + (j' + 1) = (k + 1) + j' by omega]
        rw [this]
        simp

theorem scatter_getElem {β γ : Type} (gf : ℕ × β → γ) :
    ∀ (ps : List (ℕ × β)) (init : List (Option γ)) (j : ℕ),
      (∀ p ∈ ps, p.1 < init.length) → ps.Pairwise (fun a b => a.1 ≠ b.1) →
      (ps.foldl (fun acc p => acc.set p.1 (some (gf p))) init)[j]? =
        (match ps.find? (fun p => decide (p.1 = j)) with
         | some p => some (some (gf p))
         | none => init[j]?) := by
  intro ps
  induction ps with
  | nil => intro init j _ _; simp
  | cons p rest ih =>
    intro init j hb hpw
    rw [List.foldl_cons]
    by_cases hpj : p.1 = j
    · rw [List.find?_cons_of_pos _ (by simp [hpj])]
      rw [ih _ j (fun q hq => by rw [List.length_set]; exact hb q (List.mem_cons_of_mem p hq))
        (List.Pairwise.sublist (List.sublist_cons_self p rest) hpw)]
      rw [List.find?_eq_none.mpr]
      · subst hpj
        exact List.getElem?_set_eq_of_lt _ (hb p (List.mem_cons_self p rest))
      · intro q hq
        have hne := (List.pairwise_cons.mp hpw).1 q hq
        simp only [decide_eq_true_eq]
        omega
    · rw [List.find?_cons_of_neg _ (by simp [hpj])]
      rw [ih _ j (fun q hq => by rw [List.length_set]; exact hb q (List.mem_cons_of_mem p hq))
        (List.Pairwise.sublist (List.sublist_cons_self p rest) hpw)]
      cases hfind : rest.find? (fun q => decide (q.1 = j)) with
      | some q => simp [hfind]
      | none => simp [hfind, List.getElem?_set_ne hpj]

theorem zip_map_self {α β : Type} (f : α → β) :
    ∀ (l : List α), l.zip (l.map f) = l.map (fun a => (a, f a)) := by
  intro l
  induction l with
  | nil => rfl
  | cons a rest ih => simp [ih]

theorem map_none_replicate {α β : Type} :
    ∀ (l : List α), l.map (fun _ => (none : Option β)) = List.replicate l.length none := by
  intro l
  induction l with
  | nil => rfl
  | cons a rest ih => simp [ih, List.replicate_succ]

/-- C5 — `predict_batch` is observably equivalent to mapping the
single-item `predict` over the inputs in order, including the `None`
results for an unavailable model or failed feature preparation: the
batched scatter of row-wise model outputs reproduces every individual
prediction. -/
theorem c5_batch_refines_single {ι F : Type} (available : Bool) (prep : ι → Option F)
    (proba : F → ℚ) (factors : F → List (String × ℚ)) (inps : List ι) :
    mlPredictBatch available prep proba factors inps =
      inps.map (mlPredict available prep proba factors) := by
  cases available with
  | false =>
    simp only [mlPredictBatch, mlPredict, Bool.false_eq_true, if_false]
    exact (map_none_replicate inps).symm
  | true =>
    simp only [mlPredictBatch, if_true]
    by_cases hemp : (gatherValid 0 (inps.map prep)).isEmpty = true
    · rw [if_pos hemp]
      apply List.ext_getElem?
      intro j
      have hfind := gatherValid_find (inps.map prep) 0 j
      rw [List.isEmpty_iff.mp hemp, List.find?_nil] at hfind
      rw [List.getElem?_map]
      cases hj : inps[j]? with
      | none =>
        have hlen : inps.length ≤ j := by
          by_contra hlt
          rw [List.getElem?_eq_getElem (by omega)] at hj
          exact absurd hj (by simp)
        rw [List.getElem?_eq_none (by simpa using hlen)]
        rfl
      | some a =>
        have hjlt : j < inps.length := by
          by_contra hge
          rw [List.getElem?_eq_none (by omega)] at hj
          exact absurd hj (by simp)
        rw [List.getElem?_map, hj] at hfind
        simp only [Option.map_some', Option.getD_some] at hfind
        have hprep : prep a = none := by
          cases hp : prep a with
          | none => rfl
          | some X => rw [hp] at hfind; simp at hfind
        rw [List.getElem?_replicate, if_pos hjlt]
        simp [mlPredict, hprep]
    · rw [if_neg hemp]
      rw [zip_map_self]
      simp only [List.foldl_map]
      apply List.ext_getElem?
      intro j
      rw [scatter_getElem (fun p => mkMLPrediction (proba p.2) (factors p.2))
        (gatherValid 0 (inps.map prep)) (List.replicate inps.length none) j
        (fun q hq => by
          have := (gatherValid_bounds (inps.map prep) 0 q hq).2
          simpa using this)
        (gatherValid_pairwise (inps.map prep) 0)]
      have hfind := gatherValid_find (inps.map prep) 0 j
      rw [Nat.zero_add] at hfind
      rw [hfind, List.getElem?_map, List.getElem?_map]
      cases hj : inps[j]? with
      | none =>
        have hlen : inps.length ≤ j := by
          by_contra hlt
          rw [List.getElem?_eq_getElem (by omega)] at hj
          exact absurd hj (by simp)
        simp only [Option.map_none', Option.getD_none]
        rw [List.getElem?_replicate, if_neg (by omega)]
      | some a =>
        have hjlt : j < inps.length := by
          by_contra hge
          rw [List.getElem?_eq_none (by omega)] at hj
          exact absurd hj (by simp)
        simp only [Option.map_some', Option.getD_some]
        cases hp : prep a with
        | none =>
          simp only [hp, Option.map_none']
          rw [List.getElem?_replicate, if_pos hjlt]
          simp [mlPredict, hp]
        | some X =>
          simp only [hp, Option.map_some']
          simp [mlPredict, hp]

theorem chainTraverse_zero (g : List (String × List (String × ℚ)))
    (stats : List (String × CohortStat)) (code : String) (depth : ℕ) (st : ChainAcc) :
    chainTraverse g stats 0 code depth st = st := by rw [chainTraverse]

theorem chainTraverse_succ (g : List (String × List (String × ℚ)))
    (stats : List (String × CohortStat)) (fuel : ℕ) (code : String) (depth : ℕ)
    (st : ChainAcc) :
    chainTraverse g stats (fuel + 1) code depth st =
      if code ∈ st.visited ∨ 5 < depth then st
      else chainTraverse.walk g stats fuel ((alookup g code).getD []) depth
        { st with visited := code :: st.visited } := by
  rw [chainTraverse]

theorem walk_nil (g : List (String × List (String × ℚ)))
    (stats : List (String × CohortStat)) (fuel : ℕ) (depth : ℕ) (st : ChainAcc) :
    chainTraverse.walk g stats fuel [] depth st = st := by rw [chainTraverse.walk]

theorem walk_cons (g : List (String × List (String × ℚ)))
    (stats : List (String × CohortStat)) (fuel : ℕ) (pw : String × ℚ)
    (rest : List (String × ℚ)) (depth : ℕ) (st : ChainAcc) :
    chainTraverse.walk g stats fuel (pw :: rest) depth st =
      (let prereq_name := ((alookup stats pw.1).map (·.subject_name)).getD pw.1
       let st1 :=
         if depth = 0 then
           { st with direct := st.direct ++ [{ code := pw.1, name := prereq_name, weight := pw.2 }] }
         else st
       let st2 := { st1 with full := st1.full ++ [{ code := pw.1, name := prereq_name, depth := depth + 1 }] }
       chainTraverse.walk g stats fuel rest depth (chainTraverse g stats fuel pw.1 (depth + 1) st2)) := by
  rw [chainTraverse.walk]

theorem chain_fuel_pair (g : List (String × List (String × ℚ)))
    (stats : List (String × CohortStat)) : ∀ fuel : ℕ,
    (∀ (extra : ℕ) (code : String) (depth : ℕ) (st : ChainAcc), 6 < depth + fuel →
      chainTraverse g stats (fuel + extra) code depth st =
        chainTraverse g stats fuel code depth st) ∧
    (∀ (extra : ℕ) (l : List (String × ℚ)) (depth : ℕ) (st : ChainAcc), 6 < depth + 1 + fuel →
      chainTraverse.walk g stats (fuel + extra) l depth st =
        chainTraverse.walk g stats fuel l depth st) := by
  have htrav : ∀ (f : ℕ) (code : String) (depth : ℕ) (st : ChainAcc), 5 < depth →
      chainTraverse g stats f code depth st = st := by
    intro f code depth st h
    cases f with
    | zero => rw [chainTraverse_zero]
    | succ f' => rw [chainTraverse_succ, if_pos (Or.inr h)]
  intro fuel
  induction fuel with
  | zero =>
    constructor
    · intro extra code depth st h
      rw [htrav _ _ _ _ (by omega), htrav _ _ _ _ (by omega)]
    · intro extra l depth st h
      induction l generalizing st with
      | nil => rw [walk_nil, walk_nil]
      | cons pw rest ihl =>
        rw [walk_cons, walk_cons]
        simp only
        rw [htrav _ _ _ _ (by omega), htrav _ _ _ _ (by omega)]
        exact ihl _
  | succ fuel ih =>
    have hA : ∀ (extra : ℕ) (code : String) (depth : ℕ) (st : ChainAcc),
        6 < depth + (fuel + 1) →
        chainTraverse g stats ((fuel + 1) + extra) code depth st =
          chainTraverse g stats (fuel + 1) code depth st := by
      intro extra code depth st h
      rw [show (fuel + 1) + extra = (fuel + extra) + 1 by omega]
      rw [chainTraverse_succ, chainTraverse_succ]
      by_cases hg : code ∈ st.visited ∨ 5 < depth
      · rw [if_pos hg, if_pos hg]
      · rw [if_neg hg, if_neg hg]
        exact ih.2 extra _ depth _ (by omega)
    refine ⟨hA, ?_⟩
    intro extra l depth st h
    induction l generalizing st with
    | nil => rw [walk_nil, walk_nil]
    | cons pw rest ihl =>
      rw [walk_cons, walk_cons]
      simp only
      rw [hA extra pw.1 (depth + 1) _ (by omega)]
      exact ihl _

theorem unvisitedEdges_antitone (g : List (String × List (String × ℚ))) :
    ∀ (v w : List String), (∀ x ∈ v, x ∈ w) →
      unvisitedEdges g w ≤ unvisitedEdges g v := by
  induction g with
  | nil => intro v w _; simp [unvisitedEdges]
  | cons e rest ih =>
    intro v w hvw
    simp only [unvisitedEdges, List.filter_cons] at *
    by_cases hw : e.1 ∈ w
    · by_cases hv : e.1 ∈ v
      · simpa [hw, hv] using ih v w hvw
      · simp only [hw, hv, not_true_eq_false, not_false_eq_true, decide_True, decide_False,
          if_false, if_true, List.map_cons, List.sum_cons]
        exact le_trans (ih v w hvw) (Nat.le_add_left _ _)
    · have hv : e.1 ∉ v := fun hx => hw (hvw _ hx)
      simp only [hw, hv, not_false_eq_true, decide_True, if_true, List.map_cons, List.sum_cons]
      exact Nat.add_le_add_left (ih v w hvw) _

theorem unvisitedEdges_insert (g : List (String × List (String × ℚ))) :
    ∀ (code : String) (v : List String), code ∉ v →
      ((alookup g code).getD []).length + unvisitedEdges g (code :: v) ≤
        unvisitedEdges g v := by
  induction g with
  | nil => intro code v _; simp [unvisitedEdges, alookup]
  | cons e rest ih =>
    intro code v hnv
    by_cases hk : e.1 = code
    · have hlook : alookup (e :: rest) code = some e.2 := by
        simp [alookup, List.find?_cons_of_pos, hk]
      have hsub : unvisitedEdges rest (code :: v) ≤ unvisitedEdges rest v :=
        unvisitedEdges_antitone rest v (code :: v) (fun x hx => List.mem_cons_of_mem _ hx)
      rw [hlook]
      simp only [unvisitedEdges] at hsub ⊢
      rw [List.filter_cons_of_neg (by simp [hk]), List.filter_cons_of_pos (by simp [hk, hnv])]
      simp only [List.map_cons, List.sum_cons, Option.getD_some]
      omega
    · have hlook : alookup (e :: rest) code = alookup rest code := by
        simp [alookup, List.find?_cons_of_neg, hk]
      have hih := ih code v hnv
      rw [hlook]
      simp only [unvisitedEdges] at hih ⊢
      by_cases hv : e.1 ∈ v
      · rw [List.filter_cons_of_neg (by simp [hv]), List.filter_cons_of_neg (by simp [hv])]
        omega
      · rw [List.filter_cons_of_pos (by simp [hv, hk]), List.filter_cons_of_pos (by simp [hv])]
        simp only [List.map_cons, List.sum_cons]
        omega

theorem walk_potential (g : List (String × List (String × ℚ)))
    (stats : List (String × CohortStat)) (fuel : ℕ)
    (hA : ∀ (code : String) (depth : ℕ) (st : ChainAcc),
      (chainTraverse g stats fuel code depth st).full.length +
          unvisitedEdges g (chainTraverse g stats fuel code depth st).visited ≤
        st.full.length + unvisitedEdges g st.visited) :
    ∀ (l : List (String × ℚ)) (depth : ℕ) (st : ChainAcc),
      (chainTraverse.walk g stats fuel l depth st).full.length +
          unvisitedEdges g (chainTraverse.walk g stats fuel l depth st).visited ≤
        st.full.length + unvisitedEdges g st.visited + l.length := by
  intro l
  induction l with
  | nil => intro depth st; rw [walk_nil]; simp
  | cons pw rest ihl =>
    intro depth st
    rw [walk_cons]
    simp only
    by_cases hd : depth = 0
    · simp only [if_pos hd]
      refine le_trans (ihl depth _) ?_
      refine le_trans (Nat.add_le_add_right (hA pw.1 (depth + 1) _) rest.length) ?_
      simp only [List.length_append, List.length_cons, List.length_nil]
      omega
    · simp only [if_neg hd]
      refine le_trans (ihl depth _) ?_
      refine le_trans (Nat.add_le_add_right (hA pw.1 (depth + 1) _) rest.length) ?_
      simp only [List.length_append, List.length_cons, List.length_nil]
      omega

theorem chain_potential (g : List (String × List (String × ℚ)))
    (stats : List (String × CohortStat)) : ∀ (fuel : ℕ) (code : String) (depth : ℕ)
    (st : ChainAcc),
    (chainTraverse g stats fuel code depth st).full.length +
        unvisitedEdges g (chainTraverse g stats fuel code depth st).visited ≤
      st.full.length + unvisitedEdges g st.visited := by
  intro fuel
  induction fuel with
  | zero => intro code depth st; rw [chainTraverse_zero]
  | succ fuel ih =>
    intro code depth st
    rw [chainTraverse_succ]
    by_cases hg : code ∈ st.visited ∨ 5 < depth
    · rw [if_pos hg]
    · rw [if_neg hg]
      have hnv : code ∉ st.visited := fun hx => hg (Or.inl hx)
      have hw := walk_potential g stats fuel ih ((alookup g code).getD []) depth
        { st with visited := code :: st.visited }
      have hins := unvisitedEdges_insert g code st.visited hnv
      simp only at hw
      omega

/-- C9 — For every subject code and every static prerequisite graph, including
cyclic ones, `get_prerequisite_chain` terminates: the fueled embedding
`chainTraverse` is fuel-irrelevant beyond the depth cap (any fuel above 6 —
i.e. enough to reach depth > 5, where the Python recursion cuts off — yields
the same result, so the fuel-7 run is the function's unique value and the
recursion cut off by the visited-set guard and depth cap 5 is total), and the
returned `full_chain` list has length bounded by a function of the graph size:
the number of graph edges leaving unvisited nodes (each subject is expanded at
most once thanks to the visited set). The bound is stated both for an arbitrary
graph and for the actual `SUBJECT_PREREQUISITES` graph used by
`get_prerequisite_chain`. -/
theorem c9_chain_terminates_bounded (g : List (String × List (String × ℚ)))
    (stats : List (String × CohortStat)) (code : String) :
    (∀ f₁ f₂ : ℕ, 6 < f₁ → 6 < f₂ →
      chainTraverse g stats f₁ code 0 {} = chainTraverse g stats f₂ code 0 {}) ∧
    (chainTraverse g stats 7 code 0 {}).full.length ≤ unvisitedEdges g [] ∧
    (get_prerequisite_chain stats code).full_chain.length ≤
      unvisitedEdges SUBJECT_PREREQUISITES [] := by
  have hfix : ∀ f : ℕ, 6 < f →
      chainTraverse g stats f code 0 {} = chainTraverse g stats 7 code 0 {} := by
    intro f hf
    have h := (chain_fuel_pair g stats 7).1 (f - 7) code 0 {} (by omega)
    rw [show 7 + (f - 7) = f by omega] at h
    exact h
  refine ⟨fun f₁ f₂ h₁ h₂ => (hfix f₁ h₁).trans (hfix f₂ h₂).symm, ?_, ?_⟩
  · have hp := chain_potential g stats 7 code 0 {}
    simp only [show (({} : ChainAcc)).full = [] from rfl,
      show (({} : ChainAcc)).visited = [] from rfl, List.length_nil] at hp
    omega
  · have hp := chain_potential SUBJECT_PREREQUISITES stats 7 code 0 {}
    simp only [show (({} : ChainAcc)).full = [] from rfl,
      show (({} : ChainAcc)).visited = [] from rfl, List.length_nil] at hp
    simp only [get_prerequisite_chain]
    omega

theorem c9_witness :
    ((6 < (7 : ℕ)) ∧ (6 < (42 : ℕ))) ∧
      chainTraverse cyclicGraph [] 7 "A" 0 {} = chainTraverse cyclicGraph [] 42 "A" 0 {} ∧
      (chainTraverse cyclicGraph [] 7 "A" 0 {}).full.length ≤ unvisitedEdges cyclicGraph [] ∧
      (get_prerequisite_chain [] "A").full_chain.length ≤
        unvisitedEdges SUBJECT_PREREQUISITES [] :=
  ⟨⟨by decide, by decide⟩,
   (c9_chain_terminates_bounded cyclicGraph [] "A").1 7 42 (by decide) (by decide),
   (c9_chain_terminates_bounded cyclicGraph [] "A").2.1,
   (c9_chain_terminates_bounded cyclicGraph [] "A").2.2⟩
